import Mathlib

/-! ## ElastiCache service broker

A shallow embedding of `broker/broker.go`, `broker/config.go`, `config.go`,
`awselasticache/cache_cluster.go`, `awselasticache/elasticache_cache_cluster.go` and
`awselasticache/fakes/fake_cache_cluster.go`, followed by theorems about the
identifier derivation, the status classification, the lifecycle operations, the tags
and plan fields, the spec passed to the backend, the AWS-backed `Modify` and `Describe`,
and the configuration checks.

Conventions of the embedding:

* a Go `string` is its sequence of bytes (`GoString`); `len` and slicing count bytes;
* a Go run-time panic is the `error` case of `Except GoPanic`;
* a Go `error` result is an `Option GoError` (`none` is `nil`);
* the backend behind the `CacheCluster` interface is a table of state-passing
  functions over a state type `σ`;
* `int64` values are only compared with zero and copied, so they are `Int`.
-/

namespace Broker

/-! ## Strings -/

/-- A Go `string`: an immutable sequence of bytes. -/
abbrev GoString := List UInt8

/-- The bytes of a string literal (Go source text is UTF-8). -/
def str (s : String) : GoString := s.data.flatMap String.utf8EncodeChar

/-- Run-time panics that the embedded code can raise. -/
inductive GoPanic where
  | sliceBoundsOutOfRange
  | indexOutOfRange
  | nilPointerDereference
  deriving DecidableEq, Repr

deriving instance DecidableEq for Except

/-- The call `strings.Replace(s, "-", "", -1)`: every occurrence of the one-byte
string `"-"` (byte 45) is dropped. -/
def removeHyphens (s : GoString) : GoString := s.filter (fun c => c != 45)

/-- The slice expression `s[:n]`: the first `n` bytes, and a panic when `n > len(s)`. -/
def sliceTo (s : GoString) (n : Nat) : Except GoPanic GoString :=
  if n ≤ s.length then .ok (s.take n) else .error .sliceBoundsOutOfRange

/-! ## Errors -/

/-- Go `error` values. The sentinels are package-level variables compared by
identity (`err == ErrCacheClusterDoesNotExist`); `New` is a value made on the spot
by `errors.New` or `fmt.Errorf`, or any other error carrying a message. -/
inductive GoError where
  /-- Value `brokerapi.ErrAsyncRequired`. -/
  | ErrAsyncRequired
  /-- Value `brokerapi.ErrInstanceNotUpdateable`. -/
  | ErrInstanceNotUpdateable
  /-- Value `brokerapi.ErrInstanceNotBindable`. -/
  | ErrInstanceNotBindable
  /-- Value `brokerapi.ErrInstanceDoesNotExist`. -/
  | ErrInstanceDoesNotExist
  /-- Value `awselasticache.ErrCacheClusterDoesNotExist`. -/
  | ErrCacheClusterDoesNotExist
  /-- An error made by `errors.New(msg)` or `fmt.Errorf`. -/
  | New (msg : GoString)
  deriving DecidableEq, Repr

/-- The method `Error()`: the text of an error. The texts of the four `brokerapi`
sentinels are those of that library. -/
def GoError.Error : GoError → GoString
  | .ErrAsyncRequired =>
    str "This service plan requires client support for asynchronous service operations."
  | .ErrInstanceNotUpdateable => str "instance is not updateable"
  | .ErrInstanceNotBindable => str "instance is not bindable"
  | .ErrInstanceDoesNotExist => str "instance does not exist"
  | .ErrCacheClusterDoesNotExist => str "elasticache cluster does not exist"
  | .New msg => msg

/-! ## `awselasticache/cache_cluster.go` -/

/-- A Go `map[string]string`, as an association list with unique keys. -/
abbrev Tags := List (GoString × GoString)

/-- The assignment `m[k] = v`. -/
def Tags.set (m : Tags) (k v : GoString) : Tags :=
  if m.any (fun kv => kv.1 == k) then m.map (fun kv => if kv.1 == k then (k, v) else kv)
  else m ++ [(k, v)]

/-- The struct `CacheClusterDetails`; the defaults are Go zero values. -/
structure CacheClusterDetails where
  CacheClusterId : GoString := []
  Status : GoString := []
  Endpoint : GoString := []
  Engine : GoString := []
  EngineVersion : GoString := []
  CacheInstanceClass : GoString := []
  Port : Int := 0
  NumCacheNodes : Int := 0
  CacheSecurityGroups : List GoString := []
  CacheSubnetGroupName : GoString := []
  Tags : Tags := []
  deriving DecidableEq, Repr

/-- The interface `CacheCluster`: each method takes the backend state and returns
its results together with the next state. -/
structure CacheCluster (σ : Type) where
  Describe : GoString → σ → (CacheClusterDetails × Option GoError) × σ
  Create : GoString → CacheClusterDetails → σ → Option GoError × σ
  Modify : GoString → CacheClusterDetails → Bool → σ → Option GoError × σ
  Delete : GoString → σ → Option GoError × σ

/-! ## `awselasticache/fakes/fake_cache_cluster.go` -/

/-- The struct `FakeCacheCluster`: recording fields and canned results. -/
structure FakeCacheCluster where
  DescribeCalled : Bool := false
  DescribeID : GoString := []
  DescribeCacheClusterDetails : CacheClusterDetails := {}
  DescribeError : Option GoError := none
  CreateCalled : Bool := false
  CreateID : GoString := []
  CreateCacheClusterDetails : CacheClusterDetails := {}
  CreateError : Option GoError := none
  ModifyCalled : Bool := false
  ModifyID : GoString := []
  ModifyCacheClusterDetails : CacheClusterDetails := {}
  ModifyApplyImmediately : Bool := false
  ModifyError : Option GoError := none
  DeleteCalled : Bool := false
  DeleteID : GoString := []
  DeleteError : Option GoError := none
  deriving DecidableEq, Repr

namespace FakeCacheCluster

/-- Method `(*FakeCacheCluster).Describe`. -/
def Describe (ID : GoString) (f : FakeCacheCluster) :
    (CacheClusterDetails × Option GoError) × FakeCacheCluster :=
  let f := { f with DescribeCalled := true }
  let f := { f with DescribeID := ID }
  ((f.DescribeCacheClusterDetails, f.DescribeError), f)

/-- Method `(*FakeCacheCluster).Create`. -/
def Create (ID : GoString) (cacheClusterDetails : CacheClusterDetails) (f : FakeCacheCluster) :
    Option GoError × FakeCacheCluster :=
  let f := { f with CreateCalled := true }
  let f := { f with CreateID := ID }
  let f := { f with CreateCacheClusterDetails := cacheClusterDetails }
  (f.CreateError, f)

/-- Method `(*FakeCacheCluster).Modify`. -/
def Modify (ID : GoString) (cacheClusterDetails : CacheClusterDetails) (applyImmediately : Bool)
    (f : FakeCacheCluster) : Option GoError × FakeCacheCluster :=
  let f := { f with ModifyCalled := true }
  let f := { f with ModifyID := ID }
  let f := { f with ModifyCacheClusterDetails := cacheClusterDetails }
  let f := { f with ModifyApplyImmediately := applyImmediately }
  (f.ModifyError, f)

/-- Method `(*FakeCacheCluster).Delete`. -/
def Delete (ID : GoString) (f : FakeCacheCluster) : Option GoError × FakeCacheCluster :=
  let f := { f with DeleteCalled := true }
  let f := { f with DeleteID := ID }
  (f.DeleteError, f)

/-- The fake seen through the `CacheCluster` interface. -/
def asCacheCluster : CacheCluster FakeCacheCluster :=
  { Describe := Describe, Create := Create, Modify := Modify, Delete := Delete }

end FakeCacheCluster

/-! ## Collaborators of `broker/broker.go` that are declared outside it -/

/-- Modelled from the spec: the struct holding the backend fields of a service plan
(engine name, engine version, instance class, node count, port, subnet group,
security groups); its declaration is not in the source files, the field names are
the ones `cacheClusterFromPlan` reads. -/
structure ElastiCacheProperties where
  Engine : GoString := []
  EngineVersion : GoString := []
  CacheInstanceClass : GoString := []
  Port : Int := 0
  NumCacheNodes : Int := 0
  CacheSecurityGroups : List GoString := []
  CacheSubnetGroupName : GoString := []
  deriving DecidableEq, Repr

/-- Modelled from the spec: a catalog plan; the declaration is not in the source
files, `broker.go` reads `ElastiCacheProperties` only. -/
structure ServicePlan where
  ID : GoString := []
  ElastiCacheProperties : ElastiCacheProperties := {}
  deriving DecidableEq, Repr

/-- Modelled from the spec: a catalog service; the declaration is not in the source
files, `broker.go` reads `Bindable` and `PlanUpdateable`. -/
structure Service where
  ID : GoString := []
  Bindable : Bool := false
  PlanUpdateable : Bool := false
  deriving DecidableEq, Repr

/-- Modelled from the spec: the catalog with its two lookups
`FindService(serviceID) -> (Service, found)` and
`FindServicePlan(planID) -> (ServicePlan, found)`; their bodies are not in the
source files, so every pair of lookup functions is a catalog. `Validate` is the outcome
of the method `Catalog.Validate()`, whose body is not in the source files either. -/
structure Catalog where
  FindService : GoString → Service × Bool
  FindServicePlan : GoString → ServicePlan × Bool
  Validate : Option GoError := none

/-- Modelled from the spec: the user parameters of a provision request after decoding;
the declaration is not in the source files and `broker.go` reads no field of it. -/
structure ProvisionParameters where
  deriving DecidableEq, Repr

/-- Modelled from the spec: the user parameters of an update request after decoding;
the declaration is not in the source files, `broker.go` reads `ApplyImmediately`. -/
structure UpdateParameters where
  ApplyImmediately : Bool := false
  deriving DecidableEq, Repr

/-- The struct `brokerapi.ProvisionDetails`; `Params` stands for `map[string]interface{}`. -/
structure ProvisionDetails (Params : Type) where
  ServiceID : GoString
  PlanID : GoString
  OrganizationGUID : GoString
  SpaceGUID : GoString
  Parameters : Params

/-- The struct `brokerapi.UpdateDetails`, without `PreviousValues` (never read). -/
structure UpdateDetails (Params : Type) where
  ServiceID : GoString
  PlanID : GoString
  Parameters : Params

/-- The struct `brokerapi.BindDetails`. -/
structure BindDetails (Params : Type) where
  ServiceID : GoString
  PlanID : GoString
  AppGUID : GoString
  Parameters : Params

/-- The struct `brokerapi.ProvisioningResponse`. -/
structure ProvisioningResponse where
  DashboardURL : GoString := []
  deriving DecidableEq, Repr

/-- The fields of `brokerapi.CredentialsHash` that `Bind` fills in. -/
structure CredentialsHash where
  Host : GoString := []
  Port : Int := 0
  Name : GoString := []
  deriving DecidableEq, Repr

/-- The struct `brokerapi.BindingResponse`; `Credentials` is a pointer, `none` is `nil`. -/
structure BindingResponse where
  Credentials : Option CredentialsHash := none
  SyslogDrainURL : GoString := []
  deriving DecidableEq, Repr

/-- The three constants `brokerapi.LastOperationInProgress`,
`brokerapi.LastOperationSucceeded` and `brokerapi.LastOperationFailed`
(three different strings). -/
inductive LastOperationState where
  | LastOperationInProgress
  | LastOperationSucceeded
  | LastOperationFailed
  deriving DecidableEq, Repr

export LastOperationState (LastOperationInProgress LastOperationSucceeded LastOperationFailed)

/-- The struct `brokerapi.LastOperationResponse`. -/
structure LastOperationResponse where
  State : LastOperationState
  Description : GoString := []
  deriving DecidableEq, Repr

/-- What the operations take from outside the repository: the two uses of
`mapstructure.Decode` (on a zero `ProvisionParameters` / `UpdateParameters`) and the
value of `time.Now().Format(time.RFC822Z)`. -/
structure External (Params : Type) where
  decodeProvisionParameters : Params → Except GoError ProvisionParameters
  decodeUpdateParameters : Params → Except GoError UpdateParameters
  now : GoString

/-! ## `broker/config.go` -/

/-- The struct `broker.Config`. -/
structure Config where
  Region : GoString := []
  CachePrefix : GoString := []
  AllowUserProvisionParameters : Bool := false
  AllowUserUpdateParameters : Bool := false
  Catalog : Catalog

/-- Method `Config.Validate` of package `broker`. -/
def Config.Validate (c : Config) : Option GoError :=
  if c.Region = [] then some (.New (str "Must provide a non-empty Region"))
  else if c.CachePrefix = [] then some (.New (str "Must provide a non-empty CachePrefix"))
  else
    match c.Catalog.Validate with
    | some err => some (.New (str "Validating Catalog configuration: " ++ err.Error))
    | none => none

/-! ## `config.go` -/

namespace Main

/-- The struct `Config` of package `main`. -/
structure Config where
  LogLevel : GoString := []
  Username : GoString := []
  Password : GoString := []
  ElastiCacheConfig : Broker.Config

/-- Method `Config.Validate` of package `main`. -/
def Config.Validate (c : Config) : Option GoError :=
  if c.LogLevel = [] then some (.New (str "Must provide a non-empty LogLevel"))
  else if c.Username = [] then some (.New (str "Must provide a non-empty Username"))
  else if c.Password = [] then some (.New (str "Must provide a non-empty Password"))
  else
    match c.ElastiCacheConfig.Validate with
    | some err => some (.New (str "Validating ElastiCache configuration: " ++ err.Error))
    | none => none

end Main

/-! ## `broker/broker.go` -/

/-- The map `elastiCacheStatus2State`, entry by entry as written in the source. -/
def elastiCacheStatus2State : List (GoString × LastOperationState) :=
  [ (str "available", LastOperationSucceeded),
    (str "backing-up", LastOperationInProgress),
    (str "creating", LastOperationInProgress),
    (str "deleting", LastOperationInProgress),
    (str "deleted", LastOperationInProgress),
    (str "incompatible-network", LastOperationInProgress),
    (str "modifying", LastOperationInProgress),
    (str "rebooting cache cluster nodes,", LastOperationInProgress),
    (str "restore-failed", LastOperationInProgress),
    (str "snapshotting", LastOperationInProgress) ]

/-- The struct `ElastiCacheBroker` (the logger is left out). -/
structure ElastiCacheBroker (σ : Type) where
  cachePrefix : GoString
  allowUserProvisionParameters : Bool
  allowUserUpdateParameters : Bool
  allowUserBindParameters : Bool := false
  catalog : Catalog
  cacheCluster : CacheCluster σ

namespace ElastiCacheBroker

variable {σ Params : Type}

/-- Method `cacheClusterIdentifier`:
`fmt.Sprintf("%s-%s", b.cachePrefix, strings.Replace(instanceID, "-", "", -1))[:20]`. -/
def cacheClusterIdentifier (b : ElastiCacheBroker σ) (instanceID : GoString) :
    Except GoPanic GoString :=
  sliceTo (b.cachePrefix ++ str "-" ++ removeHyphens instanceID) 20

/-- Method `cacheClusterFromPlan`. -/
def cacheClusterFromPlan (_b : ElastiCacheBroker σ) (servicePlan : ServicePlan) :
    CacheClusterDetails :=
  let cacheClusterDetails : CacheClusterDetails :=
    { Engine := servicePlan.ElastiCacheProperties.Engine }
  let cacheClusterDetails :=
    if servicePlan.ElastiCacheProperties.EngineVersion ≠ [] then
      { cacheClusterDetails with EngineVersion := servicePlan.ElastiCacheProperties.EngineVersion }
    else cacheClusterDetails
  let cacheClusterDetails :=
    if servicePlan.ElastiCacheProperties.Port > 0 then
      { cacheClusterDetails with Port := servicePlan.ElastiCacheProperties.Port }
    else cacheClusterDetails
  let cacheClusterDetails :=
    if servicePlan.ElastiCacheProperties.NumCacheNodes > 0 then
      { cacheClusterDetails with NumCacheNodes := servicePlan.ElastiCacheProperties.NumCacheNodes }
    else cacheClusterDetails
  let cacheClusterDetails :=
    if servicePlan.ElastiCacheProperties.CacheInstanceClass ≠ [] then
      { cacheClusterDetails with
        CacheInstanceClass := servicePlan.ElastiCacheProperties.CacheInstanceClass }
    else cacheClusterDetails
  let cacheClusterDetails :=
    if servicePlan.ElastiCacheProperties.CacheSubnetGroupName ≠ [] then
      { cacheClusterDetails with
        CacheSubnetGroupName := servicePlan.ElastiCacheProperties.CacheSubnetGroupName }
    else cacheClusterDetails
  let cacheClusterDetails :=
    if servicePlan.ElastiCacheProperties.CacheSecurityGroups.length > 0 then
      { cacheClusterDetails with
        CacheSecurityGroups := servicePlan.ElastiCacheProperties.CacheSecurityGroups }
    else cacheClusterDetails
  cacheClusterDetails

/-- Method `cacheTags`; `now` is the value of `time.Now().Format(time.RFC822Z)`. -/
def cacheTags (_b : ElastiCacheBroker σ) (now : GoString)
    (action serviceID planID organizationID spaceID : GoString) : Tags :=
  let tags : Tags := []
  let tags := tags.set (str "Owner") (str "Cloud Foundry")
  let tags := tags.set (action ++ str " by") (str "AWS ElastiCache Service Broker")
  let tags := tags.set (action ++ str " at") now
  let tags := if serviceID ≠ [] then tags.set (str "Service ID") serviceID else tags
  let tags := if planID ≠ [] then tags.set (str "Plan ID") planID else tags
  let tags := if organizationID ≠ [] then tags.set (str "Organization ID") organizationID else tags
  let tags := if spaceID ≠ [] then tags.set (str "Space ID") spaceID else tags
  tags

/-- Method `createCacheCluster`. -/
def createCacheCluster (b : ElastiCacheBroker σ) (now : GoString) (_instanceID : GoString)
    (servicePlan : ServicePlan) (_provisionParameters : ProvisionParameters)
    (details : ProvisionDetails Params) : CacheClusterDetails :=
  let cacheClusterDetails := b.cacheClusterFromPlan servicePlan
  { cacheClusterDetails with
    Tags := b.cacheTags now (str "Created") details.ServiceID details.PlanID
      details.OrganizationGUID details.SpaceGUID }

/-- Method `modifyCacheCluster`. -/
def modifyCacheCluster (b : ElastiCacheBroker σ) (now : GoString) (_instanceID : GoString)
    (servicePlan : ServicePlan) (_updateParameters : UpdateParameters)
    (details : UpdateDetails Params) : CacheClusterDetails :=
  let cacheClusterDetails := b.cacheClusterFromPlan servicePlan
  { cacheClusterDetails with
    Tags := b.cacheTags now (str "Updated") details.ServiceID details.PlanID [] [] }

/-- Method `Provision`. The result is the triple the Go method returns, with the
backend state after the call. -/
def Provision (ext : External Params) (b : ElastiCacheBroker σ) (instanceID : GoString)
    (details : ProvisionDetails Params) (acceptsIncomplete : Bool) (s : σ) :
    Except GoPanic ((ProvisioningResponse × Bool × Option GoError) × σ) :=
  let provisioningResponse : ProvisioningResponse := {}
  if !acceptsIncomplete then
    .ok ((provisioningResponse, false, some .ErrAsyncRequired), s)
  else
    let provisionParameters : ProvisionParameters := {}
    match (if b.allowUserProvisionParameters then
        ext.decodeProvisionParameters details.Parameters else .ok provisionParameters) with
    | .error err => .ok ((provisioningResponse, false, some err), s)
    | .ok provisionParameters =>
      match b.catalog.FindServicePlan details.PlanID with
      | (_, false) =>
        .ok ((provisioningResponse, false,
          some (.New (str "Service Plan '" ++ details.PlanID ++ str "' not found"))), s)
      | (servicePlan, true) =>
        let instance_ :=
          b.createCacheCluster ext.now instanceID servicePlan provisionParameters details
        match b.cacheClusterIdentifier instanceID with
        | .error p => .error p
        | .ok id =>
          match b.cacheCluster.Create id instance_ s with
          | (some err, s) => .ok ((provisioningResponse, false, some err), s)
          | (none, s) => .ok ((provisioningResponse, true, none), s)

/-- Method `Update`. -/
def Update (ext : External Params) (b : ElastiCacheBroker σ) (instanceID : GoString)
    (details : UpdateDetails Params) (acceptsIncomplete : Bool) (s : σ) :
    Except GoPanic ((Bool × Option GoError) × σ) :=
  if !acceptsIncomplete then
    .ok ((false, some .ErrAsyncRequired), s)
  else
    let updateParameters : UpdateParameters := {}
    match (if b.allowUserUpdateParameters then
        ext.decodeUpdateParameters details.Parameters else .ok updateParameters) with
    | .error err => .ok ((false, some err), s)
    | .ok updateParameters =>
      match b.catalog.FindService details.ServiceID with
      | (_, false) =>
        .ok ((false, some (.New (str "Service '" ++ details.ServiceID ++ str "' not found"))), s)
      | (service, true) =>
        if !service.PlanUpdateable then
          .ok ((false, some .ErrInstanceNotUpdateable), s)
        else
          match b.catalog.FindServicePlan details.PlanID with
          | (_, false) =>
            .ok ((false,
              some (.New (str "Service Plan '" ++ details.PlanID ++ str "' not found"))), s)
          | (servicePlan, true) =>
            let instance_ :=
              b.modifyCacheCluster ext.now instanceID servicePlan updateParameters details
            match b.cacheClusterIdentifier instanceID with
            | .error p => .error p
            | .ok id =>
              match b.cacheCluster.Modify id instance_ updateParameters.ApplyImmediately s with
              | (some err, s) =>
                if err = .ErrCacheClusterDoesNotExist then
                  .ok ((false, some .ErrInstanceDoesNotExist), s)
                else .ok ((false, some err), s)
              | (none, s) => .ok ((true, none), s)

/-- Method `Deprovision` (`details` is only logged). -/
def Deprovision (b : ElastiCacheBroker σ) (instanceID : GoString) (acceptsIncomplete : Bool)
    (s : σ) : Except GoPanic ((Bool × Option GoError) × σ) :=
  if !acceptsIncomplete then
    .ok ((false, some .ErrAsyncRequired), s)
  else
    match b.cacheClusterIdentifier instanceID with
    | .error p => .error p
    | .ok id =>
      match b.cacheCluster.Delete id s with
      | (some err, s) =>
        if err = .ErrCacheClusterDoesNotExist then
          .ok ((false, some .ErrInstanceDoesNotExist), s)
        else .ok ((false, some err), s)
      | (none, s) => .ok ((true, none), s)

/-- Method `Bind`. -/
def Bind (b : ElastiCacheBroker σ) (instanceID _bindingID : GoString)
    (details : BindDetails Params) (s : σ) :
    Except GoPanic ((BindingResponse × Option GoError) × σ) :=
  let bindingResponse : BindingResponse := {}
  match b.catalog.FindService details.ServiceID with
  | (_, false) =>
    .ok ((bindingResponse,
      some (.New (str "Service '" ++ details.ServiceID ++ str "' not found"))), s)
  | (service, true) =>
    if !service.Bindable then
      .ok ((bindingResponse, some .ErrInstanceNotBindable), s)
    else
      match b.cacheClusterIdentifier instanceID with
      | .error p => .error p
      | .ok id =>
        match b.cacheCluster.Describe id s with
        | ((_, some err), s) =>
          if err = .ErrCacheClusterDoesNotExist then
            .ok ((bindingResponse, some .ErrInstanceDoesNotExist), s)
          else .ok ((bindingResponse, some err), s)
        | ((cacheClusterDetails, none), s) =>
          let cacheEndpoint := cacheClusterDetails.Endpoint
          let cachePort := cacheClusterDetails.Port
          match b.cacheClusterIdentifier instanceID with
          | .error p => .error p
          | .ok name =>
            let bindingResponse :=
              { bindingResponse with
                Credentials := some { Host := cacheEndpoint, Port := cachePort, Name := name } }
            .ok ((bindingResponse, none), s)

/-- Method `Unbind` (its arguments are only logged). -/
def Unbind (_b : ElastiCacheBroker σ) (_instanceID _bindingID : GoString) (s : σ) :
    Except GoPanic (Option GoError × σ) :=
  .ok (none, s)

/-- Method `LastOperation`. The description is
`fmt.Sprintf("Cache Cluster Instance '%s' status is '%s'", id, status)`. -/
def LastOperation (b : ElastiCacheBroker σ) (instanceID : GoString) (s : σ) :
    Except GoPanic ((LastOperationResponse × Option GoError) × σ) :=
  let lastOperationResponse : LastOperationResponse := { State := LastOperationFailed }
  match b.cacheClusterIdentifier instanceID with
  | .error p => .error p
  | .ok id =>
    match b.cacheCluster.Describe id s with
    | ((_, some err), s) =>
      if err = .ErrCacheClusterDoesNotExist then
        .ok ((lastOperationResponse, some .ErrInstanceDoesNotExist), s)
      else .ok ((lastOperationResponse, some err), s)
    | ((cacheClusterDetails, none), s) =>
      match b.cacheClusterIdentifier instanceID with
      | .error p => .error p
      | .ok id2 =>
        let lastOperationResponse :=
          { lastOperationResponse with
            Description := str "Cache Cluster Instance '" ++ id2 ++ str "' status is '" ++
              cacheClusterDetails.Status ++ str "'" }
        let lastOperationResponse :=
          match elastiCacheStatus2State.lookup cacheClusterDetails.Status with
          | some state => { lastOperationResponse with State := state }
          | none => lastOperationResponse
        .ok ((lastOperationResponse, none), s)

end ElastiCacheBroker

/-! ## `awselasticache/elasticache_cache_cluster.go`

The AWS SDK is outside the repository. Its request and response structs are given with
the fields this file reads or writes, a pointer field being an `Option` (`none` is `nil`);
its calls are state-passing functions over a state `ω` of the AWS account. -/

/-- The call `strings.Split(s, sep)` for a separator of one byte. -/
def stringsSplit (s : GoString) (sep : UInt8) : List GoString :=
  match s with
  | [] => [[]]
  | c :: cs =>
    if c = sep then [] :: stringsSplit cs sep
    else
      match stringsSplit cs sep with
      | [] => [[c]]
      | field :: fields => (c :: field) :: fields

/-- Errors returned by the AWS SDK, told apart by the interfaces the code asserts. -/
inductive SdkError where
  /-- An error that implements `awserr.RequestFailure`, and with it `awserr.Error`. -/
  | requestFailure (code message : GoString) (statusCode : Int)
  /-- An error that implements `awserr.Error` and not `awserr.RequestFailure`. -/
  | awsError (code message : GoString)
  /-- An error that implements neither. -/
  | other (err : GoError)
  deriving DecidableEq, Repr

/-- The error block of `Describe`, `Modify` and `Delete`: a request failure with status
404 becomes `ErrCacheClusterDoesNotExist`, another AWS error becomes
`errors.New(awsErr.Code() + ": " + awsErr.Message())`, any other error is returned. -/
def SdkError.toErrorOrNotFound : SdkError → GoError
  | .requestFailure code message statusCode =>
    if statusCode = 404 then .ErrCacheClusterDoesNotExist
    else .New (code ++ str ": " ++ message)
  | .awsError code message => .New (code ++ str ": " ++ message)
  | .other err => err

/-- The error block of `Create` and `AddTagsToResource`: an AWS error becomes
`errors.New(awsErr.Code() + ": " + awsErr.Message())`, any other error is returned. -/
def SdkError.toError : SdkError → GoError
  | .requestFailure code message _ => .New (code ++ str ": " ++ message)
  | .awsError code message => .New (code ++ str ": " ++ message)
  | .other err => err

namespace elasticache

/-- The struct `elasticache.Tag`. -/
structure Tag where
  Key : Option GoString := none
  Value : Option GoString := none
  deriving DecidableEq, Repr

/-- The struct `elasticache.DescribeCacheClustersInput`. -/
structure DescribeCacheClustersInput where
  CacheClusterId : Option GoString := none
  ShowCacheNodeInfo : Option Bool := none
  deriving DecidableEq, Repr

/-- The struct `elasticache.CreateCacheClusterInput`. -/
structure CreateCacheClusterInput where
  CacheClusterId : Option GoString := none
  Engine : Option GoString := none
  NumCacheNodes : Option Int := none
  CacheNodeType : Option GoString := none
  CacheSubnetGroupName : Option GoString := none
  SecurityGroupIds : List (Option GoString) := []
  EngineVersion : Option GoString := none
  Port : Option Int := none
  Tags : List Tag := []
  deriving DecidableEq, Repr

/-- The struct `elasticache.ModifyCacheClusterInput`, with the fields through which a plan
could be sent. -/
structure ModifyCacheClusterInput where
  CacheClusterId : Option GoString := none
  ApplyImmediately : Option Bool := none
  NumCacheNodes : Option Int := none
  CacheNodeType : Option GoString := none
  SecurityGroupIds : List (Option GoString) := []
  EngineVersion : Option GoString := none
  deriving DecidableEq, Repr

/-- The struct `elasticache.DeleteCacheClusterInput`. -/
structure DeleteCacheClusterInput where
  CacheClusterId : Option GoString := none
  deriving DecidableEq, Repr

/-- The struct `elasticache.AddTagsToResourceInput`. -/
structure AddTagsToResourceInput where
  ResourceName : Option GoString := none
  Tags : List Tag := []
  deriving DecidableEq, Repr

/-- The struct `elasticache.Endpoint`. -/
structure Endpoint where
  Address : Option GoString := none
  Port : Option Int := none
  deriving DecidableEq, Repr

/-- The struct `elasticache.CacheNode`; `Endpoint` is a pointer. -/
structure CacheNode where
  Endpoint : Option Endpoint := none
  deriving DecidableEq, Repr

/-- The struct `elasticache.CacheCluster`, a cluster record of the backend. -/
structure CacheCluster where
  CacheClusterId : Option GoString := none
  CacheClusterStatus : Option GoString := none
  Engine : Option GoString := none
  EngineVersion : Option GoString := none
  NumCacheNodes : Option Int := none
  CacheNodes : List CacheNode := []
  deriving DecidableEq, Repr

/-- The struct `elasticache.DescribeCacheClustersOutput`. -/
structure DescribeCacheClustersOutput where
  CacheClusters : List CacheCluster := []
  deriving DecidableEq, Repr

/-- The client `*elasticache.ElastiCache`: the five calls the code makes. The outputs of
the four mutating calls are only logged and are left out. -/
structure ElastiCache (ω : Type) where
  DescribeCacheClusters :
    DescribeCacheClustersInput → ω → Except SdkError DescribeCacheClustersOutput × ω
  CreateCacheCluster : CreateCacheClusterInput → ω → Option SdkError × ω
  ModifyCacheCluster : ModifyCacheClusterInput → ω → Option SdkError × ω
  DeleteCacheCluster : DeleteCacheClusterInput → ω → Option SdkError × ω
  AddTagsToResource : AddTagsToResourceInput → ω → Option SdkError × ω

end elasticache

namespace iam

/-- The client `*iam.IAM`: the call `GetUser`, which returns an error or an output whose
`User.Arn` is the given string. -/
structure IAM (ω : Type) where
  GetUser : ω → Except SdkError GoString × ω

end iam

/-- The function `aws.StringValue`: the string pointed to, the empty string for `nil`. -/
def aws.StringValue (v : Option GoString) : GoString := v.getD []

/-- The function `aws.Int64Value`: the number pointed to, zero for `nil`. -/
def aws.Int64Value (v : Option Int) : Int := v.getD 0

/-- The struct `ElastiCacheCluster` (the logger is left out). -/
structure ElastiCacheCluster (ω : Type) where
  region : GoString
  iamsvc : iam.IAM ω
  cachesvc : elasticache.ElastiCache ω

/-- Function `BuilElastiCacheTags`; the map is ranged over in the order of the list. -/
def BuilElastiCacheTags (tags : Tags) : List elasticache.Tag :=
  tags.map (fun kv => { Key := some kv.1, Value := some kv.2 })

/-- Function `AddTagsToResource`. -/
def AddTagsToResource {ω : Type} (resourceARN : GoString) (tags : List elasticache.Tag)
    (cachesvc : elasticache.ElastiCache ω) (w : ω) : Option GoError × ω :=
  let input : elasticache.AddTagsToResourceInput :=
    { ResourceName := some resourceARN, Tags := tags }
  match cachesvc.AddTagsToResource input w with
  | (some err, w) => (some err.toError, w)
  | (none, w) => (none, w)

/-- Function `UserAccount`: the fifth colon-separated field of the user ARN;
`userAccount[4]` panics when there are fewer than five fields. -/
def UserAccount {ω : Type} (iamsvc : iam.IAM ω) (w : ω) :
    Except GoPanic ((GoString × Option SdkError) × ω) :=
  match iamsvc.GetUser w with
  | (.error err, w) => .ok (([], some err), w)
  | (.ok arn, w) =>
    let userAccount := stringsSplit arn 58
    match userAccount.get? 4 with
    | none => .error .indexOutOfRange
    | some account => .ok ((account, none), w)

namespace ElastiCacheCluster

variable {ω : Type}

/-- Method `cacheClusterARN`. -/
def cacheClusterARN (r : ElastiCacheCluster ω) (ID : GoString) (w : ω) :
    Except GoPanic ((GoString × Option SdkError) × ω) :=
  match UserAccount r.iamsvc w with
  | .error p => .error p
  | .ok ((_, some err), w) => .ok (([], some err), w)
  | .ok ((userAccount, none), w) =>
    .ok ((str "arn:aws:elasticache:" ++ r.region ++ str ":" ++ userAccount ++ str ":db:" ++ ID,
      none), w)

/-- Method `buildCreateCacheClusterInput`. -/
def buildCreateCacheClusterInput (_r : ElastiCacheCluster ω) (ID : GoString)
    (cacheClusterDetails : CacheClusterDetails) : elasticache.CreateCacheClusterInput :=
  let input : elasticache.CreateCacheClusterInput :=
    { CacheClusterId := some ID, Engine := some cacheClusterDetails.Engine }
  let input :=
    if cacheClusterDetails.NumCacheNodes > 0 then
      { input with NumCacheNodes := some cacheClusterDetails.NumCacheNodes } else input
  let input :=
    if cacheClusterDetails.CacheInstanceClass ≠ [] then
      { input with CacheNodeType := some cacheClusterDetails.CacheInstanceClass } else input
  let input :=
    if cacheClusterDetails.CacheSubnetGroupName ≠ [] then
      { input with CacheSubnetGroupName := some cacheClusterDetails.CacheSubnetGroupName }
    else input
  let input :=
    if cacheClusterDetails.CacheSecurityGroups.length > 0 then
      { input with SecurityGroupIds := cacheClusterDetails.CacheSecurityGroups.map some }
    else input
  let input :=
    if cacheClusterDetails.EngineVersion ≠ [] then
      { input with EngineVersion := some cacheClusterDetails.EngineVersion } else input
  let input :=
    if cacheClusterDetails.Port > 0 then
      { input with Port := some cacheClusterDetails.Port } else input
  let input :=
    if cacheClusterDetails.Tags.length > 0 then
      { input with Tags := BuilElastiCacheTags cacheClusterDetails.Tags } else input
  input

/-- Method `buildDeleteCacheClusterInput`. -/
def buildDeleteCacheClusterInput (_r : ElastiCacheCluster ω) (ID : GoString) :
    elasticache.DeleteCacheClusterInput :=
  { CacheClusterId := some ID }

/-- Method `buildModifyCacheClusterInput`. -/
def buildModifyCacheClusterInput (_r : ElastiCacheCluster ω) (ID : GoString)
    (_cacheClusterDetails : CacheClusterDetails) (applyImmediately : Bool) :
    elasticache.ModifyCacheClusterInput :=
  { CacheClusterId := some ID, ApplyImmediately := some applyImmediately }

/-- Method `buildCacheCluster`; `node.Endpoint.Address` dereferences the `Endpoint`
pointer of the first node. -/
def buildCacheCluster (_r : ElastiCacheCluster ω) (cacheCluster : elasticache.CacheCluster) :
    Except GoPanic CacheClusterDetails :=
  let cacheClusterDetails : CacheClusterDetails :=
    { CacheClusterId := aws.StringValue cacheCluster.CacheClusterId
      Status := aws.StringValue cacheCluster.CacheClusterStatus
      Engine := aws.StringValue cacheCluster.Engine
      EngineVersion := aws.StringValue cacheCluster.EngineVersion
      NumCacheNodes := aws.Int64Value cacheCluster.NumCacheNodes }
  match cacheCluster.CacheNodes with
  | [] => .ok cacheClusterDetails
  | node :: _ =>
    match node.Endpoint with
    | none => .error .nilPointerDereference
    | some endpoint =>
      .ok { cacheClusterDetails with
            Endpoint := aws.StringValue endpoint.Address
            Port := aws.Int64Value endpoint.Port }

/-- The loop of `Describe` over the listed clusters: the first one whose identifier is
`ID` is built and returned. -/
def describeLoop (r : ElastiCacheCluster ω) (ID : GoString) :
    List elasticache.CacheCluster → Except GoPanic (CacheClusterDetails × Option GoError)
  | [] => .ok ({}, some .ErrCacheClusterDoesNotExist)
  | cacheCluster :: rest =>
    if aws.StringValue cacheCluster.CacheClusterId = ID then
      match r.buildCacheCluster cacheCluster with
      | .error p => .error p
      | .ok d => .ok (d, none)
    else describeLoop r ID rest

/-- Method `Describe`. -/
def Describe (r : ElastiCacheCluster ω) (ID : GoString) (w : ω) :
    Except GoPanic ((CacheClusterDetails × Option GoError) × ω) :=
  let cacheClusterDetails : CacheClusterDetails := {}
  let input : elasticache.DescribeCacheClustersInput :=
    { CacheClusterId := some ID, ShowCacheNodeInfo := some true }
  match r.cachesvc.DescribeCacheClusters input w with
  | (.error err, w) => .ok ((cacheClusterDetails, some err.toErrorOrNotFound), w)
  | (.ok cacheClusters, w) =>
    match r.describeLoop ID cacheClusters.CacheClusters with
    | .error p => .error p
    | .ok res => .ok (res, w)

/-- Method `Create`. -/
def Create (r : ElastiCacheCluster ω) (ID : GoString) (cacheClusterDetails : CacheClusterDetails)
    (w : ω) : Except GoPanic (Option GoError × ω) :=
  let input := r.buildCreateCacheClusterInput ID cacheClusterDetails
  match r.cachesvc.CreateCacheCluster input w with
  | (some err, w) => .ok (some err.toError, w)
  | (none, w) => .ok (none, w)

/-- Method `Modify`. After a successful `ModifyCacheCluster`, and when the spec carries
tags, the ARN is looked up and the tags are attached; the result of the attachment is
dropped. -/
def Modify (r : ElastiCacheCluster ω) (ID : GoString) (cacheClusterDetails : CacheClusterDetails)
    (applyImmediately : Bool) (w : ω) : Except GoPanic (Option GoError × ω) :=
  let input := r.buildModifyCacheClusterInput ID cacheClusterDetails applyImmediately
  match r.cachesvc.ModifyCacheCluster input w with
  | (some err, w) => .ok (some err.toErrorOrNotFound, w)
  | (none, w) =>
    if cacheClusterDetails.Tags.length > 0 then
      match r.cacheClusterARN ID w with
      | .error p => .error p
      | .ok ((_, some _), w) => .ok (none, w)
      | .ok ((cacheClusterARN, none), w) =>
        let tags := BuilElastiCacheTags cacheClusterDetails.Tags
        let res := AddTagsToResource cacheClusterARN tags r.cachesvc w
        .ok (none, res.2)
    else .ok (none, w)

/-- Method `Delete`. -/
def Delete (r : ElastiCacheCluster ω) (ID : GoString) (w : ω) :
    Except GoPanic (Option GoError × ω) :=
  let input := r.buildDeleteCacheClusterInput ID
  match r.cachesvc.DeleteCacheCluster input w with
  | (some err, w) => .ok (some err.toErrorOrNotFound, w)
  | (none, w) => .ok (none, w)

end ElastiCacheCluster

/-! ## The identifier as the specification words it -/

/-- The derivation in the words of the specification: concatenate the prefix, `"-"` and
the instance ID with all hyphens removed, then keep the first 20 characters. -/
def deriveSpec (cachePrefix instanceID : String) : String :=
  ⟨(cachePrefix.data ++ "-".data ++ instanceID.data.filter (fun c => c != '-')).take 20⟩

/-- The byte of an ASCII character. -/
def asciiByte (c : Char) : UInt8 := c.val.toUInt8

/-- Text made of ASCII characters only: one byte per character. -/
def IsAscii (s : String) : Prop := ∀ c ∈ s.data, c.val ≤ 0x7f

/-! ## Concrete brokers used to evaluate the code -/

/-- A catalog in which no service and no plan is found. -/
def emptyCatalog : Catalog :=
  { FindService := fun _ => ({}, false), FindServicePlan := fun _ => ({}, false) }

/-- A broker over the fake backend, as `New` builds it from a `Config`. -/
def fakeBroker (cachePrefix : GoString) (catalog : Catalog)
    (allowUserProvisionParameters allowUserUpdateParameters : Bool) :
    ElastiCacheBroker FakeCacheCluster :=
  { cachePrefix := cachePrefix
    allowUserProvisionParameters := allowUserProvisionParameters
    allowUserUpdateParameters := allowUserUpdateParameters
    catalog := catalog
    cacheCluster := FakeCacheCluster.asCacheCluster }

/-- The broker of the test configuration: prefix `"cf"`, empty catalog. -/
def cfBroker : ElastiCacheBroker FakeCacheCluster :=
  fakeBroker (str "cf") emptyCatalog false false

/-- A fake backend whose `Describe` succeeds with the given status. -/
def fakeWithStatus (status : GoString) : FakeCacheCluster :=
  { DescribeCacheClusterDetails := { Status := status } }

/-- The four recording flags of the fake, in the order Describe, Create, Modify, Delete. -/
def FakeCacheCluster.calledFlags (f : FakeCacheCluster) : Bool × Bool × Bool × Bool :=
  (f.DescribeCalled, f.CreateCalled, f.ModifyCalled, f.DeleteCalled)

/-- A catalog holding one service and one plan, found by their IDs. -/
def catalogOf (service : Service) (plan : ServicePlan) : Catalog :=
  { FindService := fun serviceID => if serviceID = service.ID then (service, true) else ({}, false)
    FindServicePlan := fun planID => if planID = plan.ID then (plan, true) else ({}, false) }

/-- Collaborators for requests without parameters: both decodings succeed with the zero
value, and the clock reads a fixed time. -/
def decodingOk : External Unit :=
  { decodeProvisionParameters := fun _ => .ok {}
    decodeUpdateParameters := fun _ => .ok {}
    now := str "04 Nov 26 09:20 +0000" }

/-- Collaborators for requests whose parameters do not decode. -/
def decodingFails : External Unit :=
  { decodeProvisionParameters := fun _ => .error (.New (str "expected a map"))
    decodeUpdateParameters := fun _ => .error (.New (str "expected a map"))
    now := str "04 Nov 26 09:20 +0000" }

/-- A provision request for service `"s1"` and plan `"p1"`, without parameters. -/
def provisionP1 : ProvisionDetails Unit :=
  { ServiceID := str "s1", PlanID := str "p1", OrganizationGUID := str "org-1",
    SpaceGUID := str "space-1", Parameters := () }

/-- An update request for service `"s1"` and plan `"p1"`, without parameters. -/
def updateP1 : UpdateDetails Unit :=
  { ServiceID := str "s1", PlanID := str "p1", Parameters := () }

/-- A bind request for service `"s1"` and plan `"p1"`, without parameters. -/
def bindP1 : BindDetails Unit :=
  { ServiceID := str "s1", PlanID := str "p1", AppGUID := str "app-1", Parameters := () }

/-- The instance ID used in the examples. -/
def uuid1 : GoString := str "01234567-89ab-cdef-0123-456789abcdef"

/-- A service that is neither bindable nor plan-updateable. -/
def fixedService : Service := { ID := str "s1", Bindable := false, PlanUpdateable := false }

/-- A service that is bindable and plan-updateable. -/
def openService : Service := { ID := str "s1", Bindable := true, PlanUpdateable := true }

/-- A plan with ID `"p2"`, so that plan `"p1"` is not found in a catalog holding it. -/
def planP2 : ServicePlan := { ID := str "p2", ElastiCacheProperties := { Engine := str "redis" } }

/-- A plan with ID `"p1"`: the plan that the example requests ask for. -/
def planP1 : ServicePlan :=
  { ID := str "p1"
    ElastiCacheProperties :=
      { Engine := str "redis", EngineVersion := str "2.8.24", CacheInstanceClass := str "cache.t2.micro",
        Port := 6379, NumCacheNodes := 1 } }

/-- A broker over the fake backend, prefix `"cf"`, whose catalog holds the bindable and
updateable service `"s1"` and the plan `"p1"`; user parameters are not permitted. -/
def s1Broker : ElastiCacheBroker FakeCacheCluster :=
  fakeBroker (str "cf") (catalogOf openService planP1) false false

/-- A fake backend on which every method fails with the given error. -/
def fakeFailing (e : GoError) : FakeCacheCluster :=
  { DescribeError := some e, CreateError := some e, ModifyError := some e, DeleteError := some e }

/-- A fake backend whose `Describe` succeeds with a cluster that is available at
`cache.example.com:6379`. -/
def fakeAvailable : FakeCacheCluster :=
  { DescribeCacheClusterDetails :=
      { CacheClusterId := str "cf-0123456789abcdef0", Status := str "available",
        Endpoint := str "cache.example.com", Port := 6379 } }

/-- Collaborators for update requests whose parameters decode to
`ApplyImmediately = true`. -/
def decodingApplyNow : External Unit :=
  { decodeProvisionParameters := fun _ => .ok {}
    decodeUpdateParameters := fun _ => .ok { ApplyImmediately := true }
    now := str "04 Nov 26 09:20 +0000" }

/-- A plan whose port and node count are negative. -/
def negativePlan : ServicePlan :=
  { ID := str "p3"
    ElastiCacheProperties := { Engine := str "redis", Port := -1, NumCacheNodes := -2 } }

/-- An AWS-backed cluster in region `"us-east-1"` whose SDK calls answer with the given
outcomes: that of `ModifyCacheCluster`, that of `GetUser` (an error or the user ARN) and
that of `AddTagsToResource`; nothing is listed, and creating and deleting succeed. -/
def awsStub (modifyOutcome : Option SdkError) (user : Except SdkError GoString)
    (tagOutcome : Option SdkError) : ElastiCacheCluster Unit :=
  { region := str "us-east-1"
    iamsvc := { GetUser := fun w => (user, w) }
    cachesvc :=
      { DescribeCacheClusters := fun _ w => (.ok {}, w)
        CreateCacheCluster := fun _ w => (none, w)
        ModifyCacheCluster := fun _ w => (modifyOutcome, w)
        DeleteCacheCluster := fun _ w => (none, w)
        AddTagsToResource := fun _ w => (tagOutcome, w) } }

/-- A spec that carries one tag. -/
def taggedSpec : CacheClusterDetails :=
  { Engine := str "redis", Tags := [(str "Owner", str "Cloud Foundry")] }

/-- The configuration `validConfig` of `config_test.go`; its catalog is the zero value. -/
def validConfig : Main.Config :=
  { LogLevel := str "DEBUG", Username := str "broker-username",
    Password := str "broker-password",
    ElastiCacheConfig :=
      { Region := str "elasticache-region", CachePrefix := str "cf", Catalog := emptyCatalog } }

/-! ## A backend that logs its calls -/

/-- A call of a method of the `CacheCluster` interface, with its arguments. -/
inductive BackendCall where
  | Describe (ID : GoString)
  | Create (ID : GoString) (cacheClusterDetails : CacheClusterDetails)
  | Modify (ID : GoString) (cacheClusterDetails : CacheClusterDetails) (applyImmediately : Bool)
  | Delete (ID : GoString)
  deriving DecidableEq, Repr

/-- The backend that answers as `cc` does and appends every call to a log. -/
def CacheCluster.logged {σ : Type} (cc : CacheCluster σ) : CacheCluster (σ × List BackendCall) :=
  { Describe := fun ID s =>
      ((cc.Describe ID s.1).1, ((cc.Describe ID s.1).2, s.2 ++ [.Describe ID]))
    Create := fun ID d s =>
      ((cc.Create ID d s.1).1, ((cc.Create ID d s.1).2, s.2 ++ [.Create ID d]))
    Modify := fun ID d a s =>
      ((cc.Modify ID d a s.1).1, ((cc.Modify ID d a s.1).2, s.2 ++ [.Modify ID d a]))
    Delete := fun ID s =>
      ((cc.Delete ID s.1).1, ((cc.Delete ID s.1).2, s.2 ++ [.Delete ID])) }

/-- The broker `b` over the logging backend. -/
def ElastiCacheBroker.logged {σ : Type} (b : ElastiCacheBroker σ) :
    ElastiCacheBroker (σ × List BackendCall) :=
  { cachePrefix := b.cachePrefix
    allowUserProvisionParameters := b.allowUserProvisionParameters
    allowUserUpdateParameters := b.allowUserUpdateParameters
    allowUserBindParameters := b.allowUserBindParameters
    catalog := b.catalog
    cacheCluster := b.cacheCluster.logged }

/-- The three ways a lifecycle call started in backend state `s` can end: the derivation
`ident` of the identifier panics and so does the call; or the call returns and the backend
state is `s` as before; or the identifier `id` is derived and the call returns with the
backend state `after id x`, for some arguments `x`. -/
def OneCallAtMost {α β τ : Type} (ident : Except GoPanic GoString)
    (outcome : Except GoPanic (α × τ)) (s : τ) (after : GoString → β → τ) : Prop :=
  (∃ p, ident = .error p ∧ outcome = .error p) ∨
  (∃ r, outcome = .ok (r, s)) ∨
  (∃ id x r, ident = .ok id ∧ outcome = .ok (r, after id x))

/-- Two specs that are the same up to the tag `key`: they agree on every field other than
the tags, and on the value of every tag other than `key`. -/
def SameUpToTag (key : GoString) (d1 d2 : CacheClusterDetails) : Prop :=
  { d1 with Tags := [] } = { d2 with Tags := [] } ∧
    ∀ k, k ≠ key → d1.Tags.lookup k = d2.Tags.lookup k

/-- A provision request for service `"s1"` and plan `"p1"` in organization `"org-1"`,
without a space. -/
def provisionNoSpace : ProvisionDetails Unit :=
  { ServiceID := str "s1", PlanID := str "p1", OrganizationGUID := str "org-1",
    SpaceGUID := [], Parameters := () }

/-- An AWS-backed cluster whose state is the list of the `ModifyCacheCluster` requests
received so far; the account lookup fails, so no tag is attached. -/
def awsRecording : ElastiCacheCluster (List elasticache.ModifyCacheClusterInput) :=
  { region := str "us-east-1"
    iamsvc := { GetUser := fun w => (.error (.other (.New (str "no user"))), w) }
    cachesvc :=
      { DescribeCacheClusters := fun _ w => (.ok {}, w)
        CreateCacheCluster := fun _ w => (none, w)
        ModifyCacheCluster := fun input w => (none, w ++ [input])
        DeleteCacheCluster := fun _ w => (none, w)
        AddTagsToResource := fun _ w => (none, w) } }

/-- Collaborators for requests whose parameters are `{"apply_immediately": p}`, given as
the boolean `p`: the update parameters decode to `ApplyImmediately = p`. -/
def decodingFlag : External Bool :=
  { decodeProvisionParameters := fun _ => .ok {}
    decodeUpdateParameters := fun p => .ok { ApplyImmediately := p }
    now := str "04 Nov 26 09:20 +0000" }

/-- Collaborators as `decodingFlag`, one minute later. -/
def decodingFlagLater : External Bool :=
  { decodeProvisionParameters := fun _ => .ok {}
    decodeUpdateParameters := fun p => .ok { ApplyImmediately := p }
    now := str "04 Nov 26 09:21 +0000" }

/-- A provision request for service `"s1"` and plan `"p1"` with the given parameters. -/
def provisionWith (p : Bool) : ProvisionDetails Bool :=
  { ServiceID := str "s1", PlanID := str "p1", OrganizationGUID := str "org-1",
    SpaceGUID := str "space-1", Parameters := p }

/-- An update request for service `"s1"` and plan `"p1"` with the given parameters. -/
def updateWith (p : Bool) : UpdateDetails Bool :=
  { ServiceID := str "s1", PlanID := str "p1", Parameters := p }

/-- The broker `s1Broker` with user parameters permitted for provision and update. -/
def permissiveBroker : ElastiCacheBroker FakeCacheCluster :=
  fakeBroker (str "cf") (catalogOf openService planP1) true true

/-- A cluster record as listed while the cluster is being created: one cache node, which
has no endpoint yet. -/
def creatingCluster : elasticache.CacheCluster :=
  { CacheClusterId := some (str "cf-0123456789abcdef0")
    CacheClusterStatus := some (str "creating")
    Engine := some (str "redis"), EngineVersion := some (str "2.8.24")
    NumCacheNodes := some 1
    CacheNodes := [{ Endpoint := none }] }

/-- A cluster record as listed once the cluster is available: its node has an endpoint. -/
def availableCluster : elasticache.CacheCluster :=
  { CacheClusterId := some (str "cf-0123456789abcdef0")
    CacheClusterStatus := some (str "available")
    Engine := some (str "redis"), EngineVersion := some (str "2.8.24")
    NumCacheNodes := some 1
    CacheNodes :=
      [{ Endpoint := some { Address := some (str "cache.example.com"), Port := some 6379 } }] }

/-- A cluster record of another cluster, without cache nodes. -/
def otherCluster : elasticache.CacheCluster :=
  { CacheClusterId := some (str "cf-ffffffffffffffff0")
    CacheClusterStatus := some (str "available")
    Engine := some (str "memcached") }

/-- An AWS-backed cluster in region `"us-east-1"` whose list call succeeds with the given
cluster records. -/
def awsListing (clusters : List elasticache.CacheCluster) : ElastiCacheCluster Unit :=
  { region := str "us-east-1"
    iamsvc := { GetUser := fun w => (.ok (str "arn:aws:iam::123456789012:user/broker"), w) }
    cachesvc :=
      { DescribeCacheClusters := fun _ w => (.ok { CacheClusters := clusters }, w)
        CreateCacheCluster := fun _ w => (none, w)
        ModifyCacheCluster := fun _ w => (none, w)
        DeleteCacheCluster := fun _ w => (none, w)
        AddTagsToResource := fun _ w => (none, w) } }

/-! ## The status table as the specification words it -/

/-- The ten statuses of the table of the specification (section 4.3). -/
def specStatuses : List GoString :=
  [str "available", str "backing-up", str "creating", str "deleting", str "deleted",
    str "incompatible-network", str "modifying", str "rebooting cache cluster nodes",
    str "restore-failed", str "snapshotting"]

/-- The classification in the words of the specification: `available` is succeeded, the
nine other statuses of the table are in-progress, anything else is failed. -/
def classifySpec (status : GoString) : LastOperationState :=
  if status = str "available" then LastOperationSucceeded
  else if status ∈ specStatuses then LastOperationInProgress
  else LastOperationFailed

/-! ## Theorems: identifier derivation -/

open ElastiCacheBroker

theorem str_hyphen : str "-" = [45] := by decide

/-- When the concatenation has at least 20 bytes the slice succeeds. -/
theorem cacheClusterIdentifier_of_le {σ : Type} (b : ElastiCacheBroker σ) (instanceID : GoString)
    (h : 20 ≤ b.cachePrefix.length + 1 + (removeHyphens instanceID).length) :
    b.cacheClusterIdentifier instanceID
      = .ok ((b.cachePrefix ++ str "-" ++ removeHyphens instanceID).take 20) := by
  have hl : 20 ≤ (b.cachePrefix ++ str "-" ++ removeHyphens instanceID).length := by
    simp [str_hyphen]; omega
  unfold cacheClusterIdentifier sliceTo
  rw [if_pos hl]

/-- When the concatenation has fewer than 20 bytes the slice panics. -/
theorem cacheClusterIdentifier_of_lt {σ : Type} (b : ElastiCacheBroker σ) (instanceID : GoString)
    (h : b.cachePrefix.length + 1 + (removeHyphens instanceID).length < 20) :
    b.cacheClusterIdentifier instanceID = .error .sliceBoundsOutOfRange := by
  have hl : ¬ 20 ≤ (b.cachePrefix ++ str "-" ++ removeHyphens instanceID).length := by
    simp [str_hyphen]; omega
  unfold cacheClusterIdentifier sliceTo
  rw [if_neg hl]

/-- The first 20 bytes of the concatenation depend on the stripped instance ID only
through its first `20 - len(p) - 1` bytes. -/
theorem take_concat_congr (p x y : GoString)
    (h : x.take (20 - p.length - 1) = y.take (20 - p.length - 1)) :
    (p ++ str "-" ++ x).take 20 = (p ++ str "-" ++ y).take 20 := by
  rw [str_hyphen]
  simp only [List.append_assoc, List.take_append_eq_append_take, List.singleton_append]
  congr 1
  rcases Nat.eq_zero_or_pos (20 - p.length) with h0 | h0
  · simp [h0]
  · obtain ⟨m, hm⟩ := Nat.exists_eq_succ_of_ne_zero (Nat.pos_iff_ne_zero.mp h0)
    have hk : 20 - p.length - 1 = m := by omega
    rw [hk] at h
    rw [hm]; simp [List.take_succ_cons, h]

/-- Claim C1, at the failing input: with prefix `"cf"` and instance ID `"abc"` the
concatenation `"cf-abc"` has 6 bytes, so the slice `[:20]` panics with a slice-bounds
error and no identifier is returned; `cacheClusterIdentifier` is not total. -/
theorem cacheClusterIdentifier_short_input_panics :
    cfBroker.cacheClusterIdentifier (str "abc") = .error .sliceBoundsOutOfRange := by
  decide

/-- Claim C2 fails for a prefix longer than 20 bytes: with the 24-byte prefix
`"cloudfoundry-elasticache"` the identifier is `"cloudfoundry-elastic"`, which does not
begin with the whole prefix. -/
theorem cacheClusterIdentifier_cuts_long_cachePrefix :
    (fakeBroker (str "cloudfoundry-elasticache") emptyCatalog false false).cacheClusterIdentifier
        (str "abc") = .ok (str "cloudfoundry-elastic") ∧
      ¬ (str "cloudfoundry-elasticache" <+: str "cloudfoundry-elastic") := by
  decide

/-- Claim C2 as amended: when the concatenation has at least 20 bytes an identifier is
returned, it has exactly 20 bytes (so at most 20), it begins with the whole configured
prefix exactly when the prefix has at most 20 bytes, and for a prefix of 20 bytes or more
it is the first 20 bytes of the prefix. -/
theorem cacheClusterIdentifier_length_and_beginning {σ : Type} (b : ElastiCacheBroker σ)
    (instanceID : GoString)
    (h : 20 ≤ b.cachePrefix.length + 1 + (removeHyphens instanceID).length) :
    ∃ id, b.cacheClusterIdentifier instanceID = .ok id ∧ id.length = 20 ∧
      (b.cachePrefix <+: id ↔ b.cachePrefix.length ≤ 20) ∧
      (20 ≤ b.cachePrefix.length → id = b.cachePrefix.take 20) := by
  refine ⟨_, cacheClusterIdentifier_of_le b instanceID h, ?_, ?_, ?_⟩
  · simp [str_hyphen]; omega
  · constructor
    · intro hp
      have := hp.length_le
      simp [str_hyphen] at this
      omega
    · intro hp
      rw [List.append_assoc, List.take_append_eq_append_take, List.take_of_length_le hp]
      exact List.prefix_append _ _
  · intro hp
    rw [List.append_assoc, List.take_append_eq_append_take]
    simp [Nat.sub_eq_zero_of_le hp]

/-- Witness of `cacheClusterIdentifier_length_and_beginning`: prefix `"cf"` and a UUID. -/
theorem cacheClusterIdentifier_length_and_beginning_witness :
    20 ≤ cfBroker.cachePrefix.length + 1 +
        (removeHyphens (str "01234567-89ab-cdef-0123-456789abcdef")).length ∧
      ∃ id, cfBroker.cacheClusterIdentifier (str "01234567-89ab-cdef-0123-456789abcdef") = .ok id ∧
        id.length = 20 ∧ (cfBroker.cachePrefix <+: id ↔ cfBroker.cachePrefix.length ≤ 20) ∧
        (20 ≤ cfBroker.cachePrefix.length → id = cfBroker.cachePrefix.take 20) :=
  ⟨by decide, cacheClusterIdentifier_length_and_beginning cfBroker _ (by decide)⟩

/-- Claim C3 fails on non-ASCII input: for prefix `"cf"` and instance ID
`"café-0123456789abcdef"` the code keeps the first 20 bytes, `"cf-café0123456789ab"`
(19 characters, `é` being two bytes), while the first 20 characters are
`"cf-café0123456789abc"`. -/
theorem cacheClusterIdentifier_counts_bytes :
    cfBroker.cacheClusterIdentifier (str "café-0123456789abcdef")
        = .ok (str "cf-café0123456789ab") ∧
      deriveSpec "cf" "café-0123456789abcdef" = "cf-café0123456789abc" ∧
      cfBroker.cacheClusterIdentifier (str "café-0123456789abcdef")
        ≠ .ok (str (deriveSpec "cf" "café-0123456789abcdef")) := by
  decide

/-- Claim C3 as amended: when prefix + `"-"` + s has at least 20 bytes, where s is
the instance ID with every hyphen byte removed, the identifier returned is exactly the
first 20 bytes of prefix + `"-"` + s; the prefix is taken whole, its own hyphens
included. -/
theorem cacheClusterIdentifier_first_20_bytes {σ : Type} (b : ElastiCacheBroker σ)
    (instanceID : GoString)
    (h : 20 ≤ (b.cachePrefix ++ str "-" ++ instanceID.filter (fun c => decide (c ≠ 45))).length) :
    b.cacheClusterIdentifier instanceID
      = .ok ((b.cachePrefix ++ str "-" ++ instanceID.filter (fun c => decide (c ≠ 45))).take 20) := by
  have hr : removeHyphens instanceID = instanceID.filter (fun c => decide (c ≠ 45)) := by
    unfold removeHyphens
    congr 1
    funext c
    by_cases hc : c = 45 <;> simp [hc, bne]
  rw [← hr] at h ⊢
  apply cacheClusterIdentifier_of_le
  simp [str_hyphen] at h
  omega

/-- Witness of `cacheClusterIdentifier_first_20_bytes`: a prefix with a hyphen of its own
and a UUID; the hyphen of the prefix stays, those of the UUID go. -/
theorem cacheClusterIdentifier_first_20_bytes_witness :
    20 ≤ (str "cf-dev" ++ str "-" ++
        (str "01234567-89ab-cdef-0123-456789abcdef").filter (fun c => decide (c ≠ 45))).length ∧
      (fakeBroker (str "cf-dev") emptyCatalog false false).cacheClusterIdentifier
          (str "01234567-89ab-cdef-0123-456789abcdef")
        = .ok ((str "cf-dev" ++ str "-" ++
            (str "01234567-89ab-cdef-0123-456789abcdef").filter
              (fun c => decide (c ≠ 45))).take 20) ∧
      (str "cf-dev" ++ str "-" ++
            (str "01234567-89ab-cdef-0123-456789abcdef").filter
              (fun c => decide (c ≠ 45))).take 20 = str "cf-dev-0123456789abc" :=
  ⟨by decide,
   cacheClusterIdentifier_first_20_bytes (fakeBroker (str "cf-dev") emptyCatalog false false)
     (str "01234567-89ab-cdef-0123-456789abcdef") (by decide),
   by decide⟩

/-- An ASCII character is encoded as its one byte. -/
theorem utf8EncodeChar_ascii (c : Char) (h : c.val ≤ 0x7f) :
    String.utf8EncodeChar c = [asciiByte c] := by
  simp [String.utf8EncodeChar, h, asciiByte]

/-- The bytes of ASCII text are its characters, one by one. -/
theorem str_ascii (l : List Char) (h : ∀ c ∈ l, c.val ≤ 0x7f) :
    str ⟨l⟩ = l.map asciiByte := by
  induction l with
  | nil => rfl
  | cons c l ih =>
    have hc := h c (List.mem_cons_self _ _)
    have ih2 := ih (fun d hd => h d (List.mem_cons_of_mem _ hd))
    simp only [str] at ih2 ⊢
    simp [List.flatMap_cons, utf8EncodeChar_ascii c hc, ih2]

/-- Among ASCII characters only the hyphen has byte 45. -/
theorem asciiByte_eq_hyphen (c : Char) (h : c.val ≤ 0x7f) : asciiByte c = 45 ↔ c = '-' := by
  constructor
  · intro hb
    have h1 : c.val.toNat ≤ 127 := h
    have h2 : (asciiByte c).toNat = 45 := by rw [hb]; rfl
    have h3 : (asciiByte c).toNat = c.val.toNat % 256 := rfl
    have h4 : c.val.toNat = 45 := by omega
    apply Char.ext
    apply UInt32.ext
    exact h4
  · intro hc; subst hc; decide

/-- On ASCII text, dropping byte 45 is dropping the hyphen characters. -/
theorem removeHyphens_ascii (l : List Char) (h : ∀ c ∈ l, c.val ≤ 0x7f) :
    removeHyphens (l.map asciiByte) = (l.filter (fun c => c != '-')).map asciiByte := by
  induction l with
  | nil => rfl
  | cons c l ih =>
    have hc := h c (List.mem_cons_self _ _)
    have ih2 := ih (fun d hd => h d (List.mem_cons_of_mem _ hd))
    unfold removeHyphens at ih2 ⊢
    by_cases hy : c = '-'
    · subst hy
      simpa [List.filter_cons] using ih2
    · have hb : asciiByte c ≠ 45 := fun hb => hy ((asciiByte_eq_hyphen c hc).mp hb)
      simp [List.filter_cons, hy, hb, ih2]

/-- On ASCII input with at least 20 characters in the concatenation, the code returns
the bytes of the identifier of the specification: there bytes and characters agree. -/
theorem cacheClusterIdentifier_eq_deriveSpec_of_ascii {σ : Type} (b : ElastiCacheBroker σ)
    (p i : String) (hb : b.cachePrefix = str p) (hp : IsAscii p) (hi : IsAscii i)
    (h : 20 ≤ p.length + 1 + (i.data.filter (fun c => c != '-')).length) :
    b.cacheClusterIdentifier (str i) = .ok (str (deriveSpec p i)) := by
  have e1 : str p = p.data.map asciiByte := str_ascii p.data hp
  have e2 : str i = i.data.map asciiByte := str_ascii i.data hi
  have e3 : str "-" = ['-'].map asciiByte := by decide
  have hall : ∀ c ∈ p.data ++ "-".data ++ i.data.filter (fun c => c != '-'), c.val ≤ 0x7f := by
    intro c hc
    simp only [List.mem_append, List.mem_filter] at hc
    rcases hc with (hc | hc) | hc
    · exact hp c hc
    · have : c = '-' := by simpa using hc
      subst this; decide
    · exact hi c hc.1
  have e4 : str (deriveSpec p i)
      = ((p.data ++ "-".data ++ i.data.filter (fun c => c != '-')).take 20).map asciiByte :=
    str_ascii _ (fun c hc => hall c (List.mem_of_mem_take hc))
  rw [e4, cacheClusterIdentifier_of_le b (str i) (by
    rw [hb, e1, e2, removeHyphens_ascii i.data hi]; simpa using h)]
  rw [hb, e1, e2, e3, removeHyphens_ascii i.data hi]
  simp [List.map_take]

/-- Two instance IDs whose hyphen-stripped forms share their first `20 - len(p) - 1`
bytes get the same outcome from `cacheClusterIdentifier`: both calls panic, or, when the
concatenation for the first has at least 20 bytes, both return one and the same
identifier. (IDs that share their first characters share their first bytes.) -/
theorem cacheClusterIdentifier_collision {σ : Type} (b : ElastiCacheBroker σ)
    (a c : GoString)
    (h : (removeHyphens a).take (20 - b.cachePrefix.length - 1)
        = (removeHyphens c).take (20 - b.cachePrefix.length - 1)) :
    b.cacheClusterIdentifier a = b.cacheClusterIdentifier c ∧
      (20 ≤ b.cachePrefix.length + 1 + (removeHyphens a).length →
        ∃ id, b.cacheClusterIdentifier a = .ok id ∧ b.cacheClusterIdentifier c = .ok id) := by
  have hlen := congrArg List.length h
  simp only [List.length_take] at hlen
  have ht := take_concat_congr b.cachePrefix _ _ h
  rcases Nat.lt_or_ge (b.cachePrefix.length + 1 + (removeHyphens a).length) 20 with hlt | hge
  · have hlt2 : b.cachePrefix.length + 1 + (removeHyphens c).length < 20 := by omega
    rw [cacheClusterIdentifier_of_lt b a hlt, cacheClusterIdentifier_of_lt b c hlt2]
    exact ⟨rfl, fun hh => absurd hh (by omega)⟩
  · have hge2 : 20 ≤ b.cachePrefix.length + 1 + (removeHyphens c).length := by omega
    rw [cacheClusterIdentifier_of_le b a hge, cacheClusterIdentifier_of_le b c hge2, ht]
    exact ⟨rfl, fun _ => ⟨_, rfl, rfl⟩⟩

/-- The collision on UUIDs: with prefix `"cf"`, two different UUIDs that agree on their
first 17 hex digits both get `"cf-0123456789abcdef0"`. -/
theorem cacheClusterIdentifier_collision_witness :
    str "01234567-89ab-cdef-0123-456789abcdef" ≠ str "01234567-89ab-cdef-0fed-cba987654321" ∧
      (removeHyphens (str "01234567-89ab-cdef-0123-456789abcdef")).take 17
        = (removeHyphens (str "01234567-89ab-cdef-0fed-cba987654321")).take 17 ∧
      cfBroker.cacheClusterIdentifier (str "01234567-89ab-cdef-0123-456789abcdef")
        = .ok (str "cf-0123456789abcdef0") ∧
      (cfBroker.cacheClusterIdentifier (str "01234567-89ab-cdef-0123-456789abcdef")
          = cfBroker.cacheClusterIdentifier (str "01234567-89ab-cdef-0fed-cba987654321") ∧
        (20 ≤ cfBroker.cachePrefix.length + 1 +
            (removeHyphens (str "01234567-89ab-cdef-0123-456789abcdef")).length →
          ∃ id, cfBroker.cacheClusterIdentifier (str "01234567-89ab-cdef-0123-456789abcdef")
              = .ok id ∧
            cfBroker.cacheClusterIdentifier (str "01234567-89ab-cdef-0fed-cba987654321")
              = .ok id)) :=
  ⟨by decide, by decide, by decide,
   cacheClusterIdentifier_collision cfBroker (str "01234567-89ab-cdef-0123-456789abcdef")
     (str "01234567-89ab-cdef-0fed-cba987654321") (by decide)⟩

/-- Two instance IDs that differ only in where their hyphens are collide as well. -/
theorem cacheClusterIdentifier_hyphen_placement :
    str "0123456789abcdef-0123" ≠ str "01234567-89abcdef0123" ∧
      cfBroker.cacheClusterIdentifier (str "0123456789abcdef-0123")
        = .ok (str "cf-0123456789abcdef0") ∧
      cfBroker.cacheClusterIdentifier (str "01234567-89abcdef0123")
        = .ok (str "cf-0123456789abcdef0") := by
  decide

/-- Claim C4, at the failing input: with prefix `"cf"` the distinct instance IDs `"abc"`
and `"a-bc"` have the same hyphen-stripped form, so they share its first
`20 - len(p) - 1 = 17` bytes; the concatenation `"cf-abc"` has 6 bytes, the slice `[:20]`
panics for both, and neither call returns an identifier, let alone the same one. -/
theorem cacheClusterIdentifier_short_pair_returns_nothing :
    str "abc" ≠ str "a-bc" ∧
    (removeHyphens (str "abc")).take (20 - cfBroker.cachePrefix.length - 1)
      = (removeHyphens (str "a-bc")).take (20 - cfBroker.cachePrefix.length - 1) ∧
    cfBroker.cacheClusterIdentifier (str "abc") = .error .sliceBoundsOutOfRange ∧
    cfBroker.cacheClusterIdentifier (str "a-bc") = .error .sliceBoundsOutOfRange ∧
    ¬ ∃ id, cfBroker.cacheClusterIdentifier (str "abc") = .ok id ∧
      cfBroker.cacheClusterIdentifier (str "a-bc") = .ok id := by
  refine ⟨by decide, by decide, by decide, by decide, ?_⟩
  rintro ⟨id, h, _⟩
  have hp : cfBroker.cacheClusterIdentifier (str "abc") = .error .sliceBoundsOutOfRange := by
    decide
  rw [hp] at h
  cases h

/-! ## Theorems: status classification -/

/-- What `LastOperation` returns once the identifier is derived and `Describe` succeeds. -/
theorem LastOperation_of_describe_ok {σ : Type} (b : ElastiCacheBroker σ)
    (instanceID id : GoString) (s s' : σ) (d : CacheClusterDetails)
    (hid : b.cacheClusterIdentifier instanceID = .ok id)
    (hd : b.cacheCluster.Describe id s = ((d, none), s')) :
    b.LastOperation instanceID s =
      .ok (({ State := (elastiCacheStatus2State.lookup d.Status).getD LastOperationFailed,
              Description := str "Cache Cluster Instance '" ++ id ++ str "' status is '" ++
                d.Status ++ str "'" }, none), s') := by
  unfold LastOperation
  simp only [hid, hd]
  cases elastiCacheStatus2State.lookup d.Status <;> rfl

/-- Away from the two spellings of the rebooting status, the map of the code and the
table of the specification classify alike. -/
theorem lookup_eq_classifySpec (st : GoString)
    (h1 : st ≠ str "rebooting cache cluster nodes")
    (h2 : st ≠ str "rebooting cache cluster nodes,") :
    (elastiCacheStatus2State.lookup st).getD LastOperationFailed = classifySpec st := by
  by_cases a1 : st = str "available"
  · subst a1; decide
  by_cases a2 : st = str "backing-up"
  · subst a2; decide
  by_cases a3 : st = str "creating"
  · subst a3; decide
  by_cases a4 : st = str "deleting"
  · subst a4; decide
  by_cases a5 : st = str "deleted"
  · subst a5; decide
  by_cases a6 : st = str "incompatible-network"
  · subst a6; decide
  by_cases a7 : st = str "modifying"
  · subst a7; decide
  by_cases a8 : st = str "restore-failed"
  · subst a8; decide
  by_cases a9 : st = str "snapshotting"
  · subst a9; decide
  have hc : classifySpec st = LastOperationFailed := by
    simp [classifySpec, specStatuses, *]
  have hl : elastiCacheStatus2State.lookup st = none := by
    have e : ∀ k : GoString, st ≠ k → (st == k) = false :=
      fun k hk => beq_eq_false_iff_ne.mpr hk
    simp only [elastiCacheStatus2State, List.lookup, e _ a1, e _ a2, e _ a3, e _ a4, e _ a5,
      e _ a6, e _ a7, e _ a8, e _ a9, e _ h2]
  rw [hc, hl]; rfl

/-- For every status other than the two spellings of the rebooting status, a
`LastOperation` whose `Describe` succeeds returns the state of the specification table
with a nil error: the nine other statuses of the table are classified as the table says,
and every other status, the empty one included, is failed. -/
theorem LastOperation_state_of_spec_table {σ : Type} (b : ElastiCacheBroker σ)
    (instanceID id : GoString) (s s' : σ) (d : CacheClusterDetails)
    (hid : b.cacheClusterIdentifier instanceID = .ok id)
    (hd : b.cacheCluster.Describe id s = ((d, none), s'))
    (h1 : d.Status ≠ str "rebooting cache cluster nodes")
    (h2 : d.Status ≠ str "rebooting cache cluster nodes,") :
    b.LastOperation instanceID s =
      .ok (({ State := classifySpec d.Status,
              Description := str "Cache Cluster Instance '" ++ id ++ str "' status is '" ++
                d.Status ++ str "'" }, none), s') := by
  rw [LastOperation_of_describe_ok b instanceID id s s' d hid hd,
    lookup_eq_classifySpec d.Status h1 h2]

/-- Claim C5, at the failing input: when `Describe` succeeds with status
`"rebooting cache cluster nodes"`, `LastOperation` returns state failed (nil error),
while the table says in-progress; the key written in the map of the code is
`"rebooting cache cluster nodes,"`, with a comma inside the literal. -/
theorem LastOperation_rebooting_is_failed :
    (cfBroker.LastOperation (str "01234567-89ab-cdef-0123-456789abcdef")
        (fakeWithStatus (str "rebooting cache cluster nodes"))).map
        (fun r => (r.1.1.State, r.1.2, r.2.DescribeCalled))
      = .ok (LastOperationFailed, none, true) ∧
    classifySpec (str "rebooting cache cluster nodes") = LastOperationInProgress ∧
    elastiCacheStatus2State.lookup (str "rebooting cache cluster nodes") = none := by
  decide

/-- Claim C6, at the failing input: the status `"rebooting cache cluster nodes,"` (with a
trailing comma) is none of the ten statuses of the table, so the claim asks for failed,
yet a `LastOperation` whose `Describe` succeeds with it returns state in-progress. -/
theorem LastOperation_comma_status_in_progress :
    (cfBroker.LastOperation (str "01234567-89ab-cdef-0123-456789abcdef")
        (fakeWithStatus (str "rebooting cache cluster nodes,"))).map
        (fun r => (r.1.1.State, r.1.2, r.2.DescribeCalled))
      = .ok (LastOperationInProgress, none, true) ∧
    str "rebooting cache cluster nodes," ∉ specStatuses ∧
    classifySpec (str "rebooting cache cluster nodes,") = LastOperationFailed := by
  decide

/-! ## Theorems: lifecycle operations -/

/-- Claim C7: with `acceptsIncomplete = false`, each of `Provision`, `Update` and
`Deprovision` returns `ErrAsyncRequired` with its flag false, for every broker,
backend, instance ID and details, and hands the backend state back untouched; run on a
fresh fake backend, none of Describe, Create, Modify, Delete is recorded as called. -/
theorem async_required_before_backend {σ Params : Type} (ext : External Params)
    (b : ElastiCacheBroker σ) (instanceID : GoString) (pd : ProvisionDetails Params)
    (ud : UpdateDetails Params) (s : σ) :
    b.Provision ext instanceID pd false s = .ok (({}, false, some .ErrAsyncRequired), s) ∧
    b.Update ext instanceID ud false s = .ok ((false, some .ErrAsyncRequired), s) ∧
    b.Deprovision instanceID false s = .ok ((false, some .ErrAsyncRequired), s) ∧
    (((fakeBroker b.cachePrefix b.catalog b.allowUserProvisionParameters
        b.allowUserUpdateParameters).Provision ext instanceID pd false {}).map
        (fun r => r.2.calledFlags) = .ok (false, false, false, false)) ∧
    (((fakeBroker b.cachePrefix b.catalog b.allowUserProvisionParameters
        b.allowUserUpdateParameters).Update ext instanceID ud false {}).map
        (fun r => r.2.calledFlags) = .ok (false, false, false, false)) ∧
    (((fakeBroker b.cachePrefix b.catalog b.allowUserProvisionParameters
        b.allowUserUpdateParameters).Deprovision instanceID false {}).map
        (fun r => r.2.calledFlags) = .ok (false, false, false, false)) := by
  refine ⟨?_, ?_, ?_, ?_, ?_, ?_⟩ <;>
    simp [Provision, Update, Deprovision, Except.map, FakeCacheCluster.calledFlags]

/-- Claim C8: a `Provision` with `acceptsIncomplete = true` whose plan ID is not found in
the catalog, and whose parameters decode without error when they are decoded at all,
fails with the error `"Service Plan '<PlanID>' not found"` and hands the backend state
back untouched (no backend method is applied). -/
theorem Provision_plan_not_found {σ Params : Type} (ext : External Params)
    (b : ElastiCacheBroker σ) (instanceID : GoString) (pd : ProvisionDetails Params) (s : σ)
    (hplan : (b.catalog.FindServicePlan pd.PlanID).2 = false)
    (hdec : b.allowUserProvisionParameters = true →
      ∃ pp, ext.decodeProvisionParameters pd.Parameters = .ok pp) :
    b.Provision ext instanceID pd true s =
      .ok (({}, false,
        some (.New (str "Service Plan '" ++ pd.PlanID ++ str "' not found"))), s) := by
  rcases hfp : b.catalog.FindServicePlan pd.PlanID with ⟨plan, found⟩
  rw [hfp] at hplan
  simp only at hplan
  subst hplan
  cases ha : b.allowUserProvisionParameters
  · simp [Provision, ha, hfp]
  · obtain ⟨pp, hpp⟩ := hdec ha
    simp [Provision, ha, hfp, hpp]

/-- Witness of `Provision_plan_not_found`: plan `"p1"` against the empty catalog, on a
fresh fake backend, which stays uncalled. -/
theorem Provision_plan_not_found_witness :
    (cfBroker.catalog.FindServicePlan provisionP1.PlanID).2 = false ∧
    cfBroker.Provision decodingOk uuid1 provisionP1 true {} =
      .ok (({}, false,
        some (.New (str "Service Plan '" ++ provisionP1.PlanID ++ str "' not found"))), {}) ∧
    str "Service Plan '" ++ provisionP1.PlanID ++ str "' not found"
      = str "Service Plan 'p1' not found" ∧
    ({} : FakeCacheCluster).calledFlags = (false, false, false, false) :=
  ⟨by decide,
   Provision_plan_not_found decodingOk cfBroker uuid1 provisionP1 {} (by decide)
     (fun _ => ⟨{}, rfl⟩),
   by decide, by decide⟩

/-- Claim C9 fails as stated: the checks are made in a fixed order and only the first
failure is reported. An `Update` whose service ID and plan ID are both unknown returns
`"Service 's1' not found"`, not `"Service Plan 'p1' not found"`; and with
`acceptsIncomplete = false` an `Update` with an unknown service ID, and a `Provision`
whose parameters do not decode, return `ErrAsyncRequired`. -/
theorem Update_reports_first_failure_only :
    (cfBroker.catalog.FindService updateP1.ServiceID).2 = false ∧
    (cfBroker.catalog.FindServicePlan updateP1.PlanID).2 = false ∧
    cfBroker.Update decodingOk uuid1 updateP1 true {} =
      .ok ((false, some (.New (str "Service 's1' not found"))), {}) ∧
    cfBroker.Update decodingOk uuid1 updateP1 true {} ≠
      .ok ((false, some (.New (str "Service Plan 'p1' not found"))), {}) ∧
    cfBroker.Update decodingOk uuid1 updateP1 false {} =
      .ok ((false, some .ErrAsyncRequired), {}) ∧
    (fakeBroker (str "cf") emptyCatalog true true).Provision decodingFails uuid1 provisionP1
        false {} = .ok (({}, false, some .ErrAsyncRequired), {}) := by
  decide

/-- Claim C9 as amended: for calls with `acceptsIncomplete = true` (`Bind` has no such
flag) the first failing check is reported and the backend state is handed back untouched.
(1, 2) When user parameters are permitted and decoding fails, `Provision` and `Update`
return the decode error. (3) When the parameters are not decoded or decode without error
and the service ID is unknown, `Update` returns `"Service '<id>' not found"`. (4) When
the service ID is unknown, `Bind` returns `"Service '<id>' not found"`. (5) When moreover
the service is found and plan-updateable and the plan ID is unknown, `Update` returns
`"Service Plan '<id>' not found"`. -/
theorem configuration_errors_before_backend {σ Params : Type} (ext : External Params)
    (b : ElastiCacheBroker σ) (instanceID bindingID : GoString)
    (pd : ProvisionDetails Params) (ud : UpdateDetails Params) (bd : BindDetails Params)
    (s : σ) :
    (∀ e, b.allowUserProvisionParameters = true →
      ext.decodeProvisionParameters pd.Parameters = .error e →
      b.Provision ext instanceID pd true s = .ok (({}, false, some e), s)) ∧
    (∀ e, b.allowUserUpdateParameters = true →
      ext.decodeUpdateParameters ud.Parameters = .error e →
      b.Update ext instanceID ud true s = .ok ((false, some e), s)) ∧
    ((b.allowUserUpdateParameters = true →
        ∃ up, ext.decodeUpdateParameters ud.Parameters = .ok up) →
      (b.catalog.FindService ud.ServiceID).2 = false →
      b.Update ext instanceID ud true s =
        .ok ((false, some (.New (str "Service '" ++ ud.ServiceID ++ str "' not found"))), s)) ∧
    ((b.catalog.FindService bd.ServiceID).2 = false →
      b.Bind instanceID bindingID bd s =
        .ok (({}, some (.New (str "Service '" ++ bd.ServiceID ++ str "' not found"))), s)) ∧
    ((b.allowUserUpdateParameters = true →
        ∃ up, ext.decodeUpdateParameters ud.Parameters = .ok up) →
      (b.catalog.FindService ud.ServiceID).2 = true →
      (b.catalog.FindService ud.ServiceID).1.PlanUpdateable = true →
      (b.catalog.FindServicePlan ud.PlanID).2 = false →
      b.Update ext instanceID ud true s =
        .ok ((false,
          some (.New (str "Service Plan '" ++ ud.PlanID ++ str "' not found"))), s)) := by
  refine ⟨?_, ?_, ?_, ?_, ?_⟩
  · intro e ha he
    simp [Provision, ha, he]
  · intro e ha he
    simp [Update, ha, he]
  · intro hdec hs
    rcases hfs : b.catalog.FindService ud.ServiceID with ⟨svc, found⟩
    rw [hfs] at hs
    simp only at hs
    subst hs
    cases ha : b.allowUserUpdateParameters
    · simp [Update, ha, hfs]
    · obtain ⟨up, hup⟩ := hdec ha
      simp [Update, ha, hfs, hup]
  · intro hs
    rcases hfs : b.catalog.FindService bd.ServiceID with ⟨svc, found⟩
    rw [hfs] at hs
    simp only at hs
    subst hs
    simp [ElastiCacheBroker.Bind, hfs]
  · intro hdec hs hu hp
    rcases hfs : b.catalog.FindService ud.ServiceID with ⟨svc, found⟩
    rcases hfp : b.catalog.FindServicePlan ud.PlanID with ⟨plan, pfound⟩
    rw [hfs] at hs hu
    rw [hfp] at hp
    simp only at hs hu hp
    subst hs hp
    cases ha : b.allowUserUpdateParameters
    · simp [Update, ha, hfs, hfp, hu]
    · obtain ⟨up, hup⟩ := hdec ha
      simp [Update, ha, hfs, hfp, hu, hup]

/-- Witness of `configuration_errors_before_backend`: a broker that permits user
parameters over a catalog holding the updateable service `"s1"` and the plan `"p2"`;
the decode failures are taken with `decodingFails`, the unknown service `"s1"` with the
empty catalog, the unknown plan `"p1"` with the catalog holding plan `"p2"`. -/
theorem configuration_errors_before_backend_witness :
    (fakeBroker (str "cf") emptyCatalog true true).Provision decodingFails uuid1 provisionP1
        true {} = .ok (({}, false, some (.New (str "expected a map"))), {}) ∧
    (fakeBroker (str "cf") emptyCatalog true true).Update decodingFails uuid1 updateP1
        true {} = .ok ((false, some (.New (str "expected a map"))), {}) ∧
    (fakeBroker (str "cf") emptyCatalog true true).Update decodingOk uuid1 updateP1 true {} =
      .ok ((false, some (.New (str "Service '" ++ updateP1.ServiceID ++ str "' not found"))),
        {}) ∧
    (fakeBroker (str "cf") emptyCatalog true true).Bind uuid1 (str "binding-1") bindP1 {} =
      .ok (({}, some (.New (str "Service '" ++ bindP1.ServiceID ++ str "' not found"))), {}) ∧
    (fakeBroker (str "cf") (catalogOf openService planP2) true true).Update decodingOk uuid1
        updateP1 true {} =
      .ok ((false,
        some (.New (str "Service Plan '" ++ updateP1.PlanID ++ str "' not found"))), {}) ∧
    ({} : FakeCacheCluster).calledFlags = (false, false, false, false) :=
  ⟨(configuration_errors_before_backend decodingFails
      (fakeBroker (str "cf") emptyCatalog true true) uuid1 (str "binding-1") provisionP1
      updateP1 bindP1 {}).1 _ rfl rfl,
   (configuration_errors_before_backend decodingFails
      (fakeBroker (str "cf") emptyCatalog true true) uuid1 (str "binding-1") provisionP1
      updateP1 bindP1 {}).2.1 _ rfl rfl,
   (configuration_errors_before_backend decodingOk
      (fakeBroker (str "cf") emptyCatalog true true) uuid1 (str "binding-1") provisionP1
      updateP1 bindP1 {}).2.2.1 (fun _ => ⟨{}, rfl⟩) (by decide),
   (configuration_errors_before_backend decodingOk
      (fakeBroker (str "cf") emptyCatalog true true) uuid1 (str "binding-1") provisionP1
      updateP1 bindP1 {}).2.2.2.1 (by decide),
   (configuration_errors_before_backend decodingOk
      (fakeBroker (str "cf") (catalogOf openService planP2) true true) uuid1
      (str "binding-1") provisionP1 updateP1 bindP1 {}).2.2.2.2 (fun _ => ⟨{}, rfl⟩)
      (by decide) (by decide) (by decide),
   by decide⟩

/-- Claim C10: an `Update` with `acceptsIncomplete = true`, whose parameters decode when
they are decoded at all and whose service is found with `PlanUpdateable = false`, returns
`ErrInstanceNotUpdateable`; a `Bind` whose service is found with `Bindable = false`
returns `ErrInstanceNotBindable` and no credentials; both for every backend and every
backend state, which is handed back untouched (no backend method is applied). -/
theorem policy_violations_before_backend {σ Params : Type} (ext : External Params)
    (b : ElastiCacheBroker σ) (instanceID bindingID : GoString)
    (ud : UpdateDetails Params) (bd : BindDetails Params) (s : σ) :
    ((b.allowUserUpdateParameters = true →
        ∃ up, ext.decodeUpdateParameters ud.Parameters = .ok up) →
      (b.catalog.FindService ud.ServiceID).2 = true →
      (b.catalog.FindService ud.ServiceID).1.PlanUpdateable = false →
      b.Update ext instanceID ud true s = .ok ((false, some .ErrInstanceNotUpdateable), s)) ∧
    ((b.catalog.FindService bd.ServiceID).2 = true →
      (b.catalog.FindService bd.ServiceID).1.Bindable = false →
      b.Bind instanceID bindingID bd s = .ok (({}, some .ErrInstanceNotBindable), s)) := by
  refine ⟨?_, ?_⟩
  · intro hdec hs hu
    rcases hfs : b.catalog.FindService ud.ServiceID with ⟨svc, found⟩
    rw [hfs] at hs hu
    simp only at hs hu
    subst hs
    cases ha : b.allowUserUpdateParameters
    · simp [Update, ha, hfs, hu]
    · obtain ⟨up, hup⟩ := hdec ha
      simp [Update, ha, hfs, hu, hup]
  · intro hs hb
    rcases hfs : b.catalog.FindService bd.ServiceID with ⟨svc, found⟩
    rw [hfs] at hs hb
    simp only at hs hb
    subst hs
    simp [ElastiCacheBroker.Bind, hfs, hb]

/-- Witness of `policy_violations_before_backend`: the service `"s1"` is found, neither
plan-updateable nor bindable; the fake backend is left uncalled, whatever it would
have answered. -/
theorem policy_violations_before_backend_witness :
    (fakeBroker (str "cf") (catalogOf fixedService planP2) false false).Update decodingOk
        uuid1 updateP1 true (fakeWithStatus (str "available")) =
      .ok ((false, some .ErrInstanceNotUpdateable), fakeWithStatus (str "available")) ∧
    (fakeBroker (str "cf") (catalogOf fixedService planP2) false false).Bind uuid1
        (str "binding-1") bindP1 (fakeWithStatus (str "available")) =
      .ok (({}, some .ErrInstanceNotBindable), fakeWithStatus (str "available")) ∧
    (fakeWithStatus (str "available")).calledFlags = (false, false, false, false) :=
  ⟨(policy_violations_before_backend decodingOk
      (fakeBroker (str "cf") (catalogOf fixedService planP2) false false) uuid1
      (str "binding-1") updateP1 bindP1 (fakeWithStatus (str "available"))).1
      (fun h => absurd h (by decide)) (by decide) (by decide),
   (policy_violations_before_backend decodingOk
      (fakeBroker (str "cf") (catalogOf fixedService planP2) false false) uuid1
      (str "binding-1") updateP1 bindP1 (fakeWithStatus (str "available"))).2
      (by decide) (by decide),
   by decide⟩

/-! ## Theorems: the operations once the backend is reached -/

/-- What `Provision` returns once its guards are passed: the outcome of `Create`. -/
theorem Provision_of_reached {σ Params : Type} (ext : External Params)
    (b : ElastiCacheBroker σ) (instanceID id : GoString) (pd : ProvisionDetails Params) (s : σ)
    (pp : ProvisionParameters) (plan : ServicePlan)
    (hpp : (if b.allowUserProvisionParameters then
      ext.decodeProvisionParameters pd.Parameters else .ok {}) = .ok pp)
    (hfp : b.catalog.FindServicePlan pd.PlanID = (plan, true))
    (hid : b.cacheClusterIdentifier instanceID = .ok id) :
    b.Provision ext instanceID pd true s =
      match b.cacheCluster.Create id (b.createCacheCluster ext.now instanceID plan pp pd) s with
      | (some err, s') => .ok (({}, false, some err), s')
      | (none, s') => .ok (({}, true, none), s') := by
  simp only [Provision, hpp, hfp, hid]
  rfl

/-- What `Update` returns once its guards are passed: the outcome of `Modify`, with
`ErrCacheClusterDoesNotExist` replaced. -/
theorem Update_of_reached {σ Params : Type} (ext : External Params)
    (b : ElastiCacheBroker σ) (instanceID id : GoString) (ud : UpdateDetails Params) (s : σ)
    (up : UpdateParameters) (svc : Service) (plan : ServicePlan)
    (hup : (if b.allowUserUpdateParameters then
      ext.decodeUpdateParameters ud.Parameters else .ok {}) = .ok up)
    (hfs : b.catalog.FindService ud.ServiceID = (svc, true))
    (hu : svc.PlanUpdateable = true)
    (hfp : b.catalog.FindServicePlan ud.PlanID = (plan, true))
    (hid : b.cacheClusterIdentifier instanceID = .ok id) :
    b.Update ext instanceID ud true s =
      match b.cacheCluster.Modify id (b.modifyCacheCluster ext.now instanceID plan up ud)
          up.ApplyImmediately s with
      | (some err, s') =>
        if err = .ErrCacheClusterDoesNotExist then
          .ok ((false, some .ErrInstanceDoesNotExist), s')
        else .ok ((false, some err), s')
      | (none, s') => .ok ((true, none), s') := by
  simp only [Update, hup, hfs, hu, hfp, hid]
  rfl

/-- What `Deprovision` returns once the identifier is derived: the outcome of `Delete`,
with `ErrCacheClusterDoesNotExist` replaced. -/
theorem Deprovision_of_reached {σ : Type} (b : ElastiCacheBroker σ)
    (instanceID id : GoString) (s : σ)
    (hid : b.cacheClusterIdentifier instanceID = .ok id) :
    b.Deprovision instanceID true s =
      match b.cacheCluster.Delete id s with
      | (some err, s') =>
        if err = .ErrCacheClusterDoesNotExist then
          .ok ((false, some .ErrInstanceDoesNotExist), s')
        else .ok ((false, some err), s')
      | (none, s') => .ok ((true, none), s') := by
  simp only [Deprovision, hid]
  rfl

/-- What `Bind` returns once its guards are passed: the outcome of `Describe`, with
`ErrCacheClusterDoesNotExist` replaced, or the credentials. -/
theorem Bind_of_reached {σ Params : Type} (b : ElastiCacheBroker σ)
    (instanceID bindingID id : GoString) (bd : BindDetails Params) (s : σ) (svc : Service)
    (hfs : b.catalog.FindService bd.ServiceID = (svc, true))
    (hb : svc.Bindable = true)
    (hid : b.cacheClusterIdentifier instanceID = .ok id) :
    b.Bind instanceID bindingID bd s =
      match b.cacheCluster.Describe id s with
      | ((_, some err), s') =>
        if err = .ErrCacheClusterDoesNotExist then
          .ok (({}, some .ErrInstanceDoesNotExist), s')
        else .ok (({}, some err), s')
      | ((d, none), s') =>
        .ok (({ Credentials := some { Host := d.Endpoint, Port := d.Port, Name := id } }, none),
          s') := by
  simp only [ElastiCacheBroker.Bind, hfs, hb, hid]
  rfl

/-- What `LastOperation` returns when `Describe` fails. -/
theorem LastOperation_of_describe_error {σ : Type} (b : ElastiCacheBroker σ)
    (instanceID id : GoString) (s s' : σ) (d : CacheClusterDetails) (e : GoError)
    (hid : b.cacheClusterIdentifier instanceID = .ok id)
    (hd : b.cacheCluster.Describe id s = ((d, some e), s')) :
    b.LastOperation instanceID s =
      if e = .ErrCacheClusterDoesNotExist then
        .ok (({ State := LastOperationFailed }, some .ErrInstanceDoesNotExist), s')
      else .ok (({ State := LastOperationFailed }, some e), s') := by
  simp only [LastOperation, hid, hd]

/-- A `Provision` that returns a nil error has passed every guard, has called `Create`
with the derived identifier, and `Create` has returned nil. -/
theorem Provision_nil_only_after_Create {σ Params : Type} (ext : External Params)
    (b : ElastiCacheBroker σ) (instanceID : GoString) (pd : ProvisionDetails Params)
    (acc : Bool) (s s' : σ) (resp : ProvisioningResponse) (accepted : Bool)
    (h : b.Provision ext instanceID pd acc s = .ok ((resp, accepted, none), s')) :
    accepted = true ∧ acc = true ∧ ∃ pp plan id,
      (if b.allowUserProvisionParameters then
        ext.decodeProvisionParameters pd.Parameters else .ok {}) = .ok pp ∧
      b.catalog.FindServicePlan pd.PlanID = (plan, true) ∧
      b.cacheClusterIdentifier instanceID = .ok id ∧
      b.cacheCluster.Create id (b.createCacheCluster ext.now instanceID plan pp pd) s
        = (none, s') := by
  cases acc
  · simp [Provision] at h
  · rcases hpp : (if b.allowUserProvisionParameters then
        ext.decodeProvisionParameters pd.Parameters else .ok {}) with e | pp
    · simp [Provision, hpp] at h
    · rcases hfp : b.catalog.FindServicePlan pd.PlanID with ⟨plan, found⟩
      cases found
      · simp [Provision, hpp, hfp] at h
      · rcases hid : b.cacheClusterIdentifier instanceID with p | id
        · simp [Provision, hpp, hfp, hid] at h
        · rw [Provision_of_reached ext b instanceID id pd s pp plan hpp hfp hid] at h
          rcases hc : b.cacheCluster.Create id
              (b.createCacheCluster ext.now instanceID plan pp pd) s with ⟨oe, s2⟩
          rw [hc] at h
          cases oe with
          | some e => simp at h
          | none =>
            simp at h
            exact ⟨h.1.2, rfl, pp, plan, id, rfl, rfl, rfl, by rw [← h.2]; exact hc⟩

/-! ## Theorems: backend errors -/

/-- Claim C11: once the identifier is derived, whenever the backend call of `Update`
(`Modify`, reached past the guards), `Deprovision` (`Delete`), `Bind` (`Describe`, on a
found, bindable service) or `LastOperation` (`Describe`) returns
`ErrCacheClusterDoesNotExist`, the operation returns `ErrInstanceDoesNotExist`; `Bind`
then returns no credentials and `LastOperation` the state failed. -/
theorem not_found_becomes_instance_does_not_exist {σ Params : Type} (ext : External Params)
    (b : ElastiCacheBroker σ) (instanceID bindingID id : GoString)
    (ud : UpdateDetails Params) (bd : BindDetails Params) (s s' : σ)
    (hid : b.cacheClusterIdentifier instanceID = .ok id) :
    (∀ up svc plan,
      (if b.allowUserUpdateParameters then
        ext.decodeUpdateParameters ud.Parameters else .ok {}) = .ok up →
      b.catalog.FindService ud.ServiceID = (svc, true) → svc.PlanUpdateable = true →
      b.catalog.FindServicePlan ud.PlanID = (plan, true) →
      b.cacheCluster.Modify id (b.modifyCacheCluster ext.now instanceID plan up ud)
          up.ApplyImmediately s = (some .ErrCacheClusterDoesNotExist, s') →
      b.Update ext instanceID ud true s = .ok ((false, some .ErrInstanceDoesNotExist), s')) ∧
    (b.cacheCluster.Delete id s = (some .ErrCacheClusterDoesNotExist, s') →
      b.Deprovision instanceID true s = .ok ((false, some .ErrInstanceDoesNotExist), s')) ∧
    (∀ svc d,
      b.catalog.FindService bd.ServiceID = (svc, true) → svc.Bindable = true →
      b.cacheCluster.Describe id s = ((d, some .ErrCacheClusterDoesNotExist), s') →
      b.Bind instanceID bindingID bd s =
        .ok (({ Credentials := none }, some .ErrInstanceDoesNotExist), s')) ∧
    (∀ d,
      b.cacheCluster.Describe id s = ((d, some .ErrCacheClusterDoesNotExist), s') →
      b.LastOperation instanceID s =
        .ok (({ State := LastOperationFailed }, some .ErrInstanceDoesNotExist), s')) := by
  refine ⟨?_, ?_, ?_, ?_⟩
  · intro up svc plan hup hfs hu hfp hm
    rw [Update_of_reached ext b instanceID id ud s up svc plan hup hfs hu hfp hid, hm]
    simp
  · intro hd
    rw [Deprovision_of_reached b instanceID id s hid, hd]
    simp
  · intro svc d hfs hb hd
    rw [Bind_of_reached b instanceID bindingID id bd s svc hfs hb hid, hd]
    simp
  · intro d hd
    rw [LastOperation_of_describe_error b instanceID id s s' d _ hid hd]
    simp

/-- Witness of `not_found_becomes_instance_does_not_exist`: the broker with service
`"s1"` and plan `"p1"` over a fake on which every method answers
`ErrCacheClusterDoesNotExist`. -/
theorem not_found_becomes_instance_does_not_exist_witness :
    s1Broker.cacheClusterIdentifier uuid1 = .ok (str "cf-0123456789abcdef0") ∧
    (s1Broker.Update decodingOk uuid1 updateP1 true
        (fakeFailing .ErrCacheClusterDoesNotExist)).map (fun r => r.1)
      = .ok (false, some .ErrInstanceDoesNotExist) ∧
    (s1Broker.Deprovision uuid1 true
        (fakeFailing .ErrCacheClusterDoesNotExist)).map (fun r => r.1)
      = .ok (false, some .ErrInstanceDoesNotExist) ∧
    (s1Broker.Bind uuid1 (str "binding-1") bindP1
        (fakeFailing .ErrCacheClusterDoesNotExist)).map (fun r => r.1)
      = .ok ({ Credentials := none }, some .ErrInstanceDoesNotExist) ∧
    (s1Broker.LastOperation uuid1
        (fakeFailing .ErrCacheClusterDoesNotExist)).map (fun r => r.1)
      = .ok ({ State := LastOperationFailed }, some .ErrInstanceDoesNotExist) :=
  have h := fun s' => not_found_becomes_instance_does_not_exist decodingOk s1Broker uuid1
    (str "binding-1") (str "cf-0123456789abcdef0") updateP1 bindP1
    (fakeFailing .ErrCacheClusterDoesNotExist) s' (by decide)
  ⟨by decide,
   by rw [(h _).1 {} openService planP1 rfl (by decide) rfl (by decide) rfl]; rfl,
   by rw [(h _).2.1 rfl]; rfl,
   by rw [(h _).2.2.1 openService _ (by decide) rfl rfl]; rfl,
   by rw [(h _).2.2.2 _ rfl]; rfl⟩

/-- Claim C12: once the identifier is derived, an error `e` other than
`ErrCacheClusterDoesNotExist` returned by the backend call of `Update`, `Deprovision`,
`Bind` or `LastOperation` is returned as it is; every error returned by `Create`, whatever
it is, is returned by `Provision` as it is, with accepted false; `Provision` returns
accepted true and a nil error when `Create` returns nil, and a `Provision` that returns a
nil error has called `Create`, which returned nil. -/
theorem backend_errors_returned_unchanged {σ Params : Type} (ext : External Params)
    (b : ElastiCacheBroker σ) (instanceID bindingID id : GoString)
    (pd : ProvisionDetails Params) (ud : UpdateDetails Params) (bd : BindDetails Params)
    (s s' : σ) (e : GoError)
    (hid : b.cacheClusterIdentifier instanceID = .ok id) :
    (∀ up svc plan, e ≠ .ErrCacheClusterDoesNotExist →
      (if b.allowUserUpdateParameters then
        ext.decodeUpdateParameters ud.Parameters else .ok {}) = .ok up →
      b.catalog.FindService ud.ServiceID = (svc, true) → svc.PlanUpdateable = true →
      b.catalog.FindServicePlan ud.PlanID = (plan, true) →
      b.cacheCluster.Modify id (b.modifyCacheCluster ext.now instanceID plan up ud)
          up.ApplyImmediately s = (some e, s') →
      b.Update ext instanceID ud true s = .ok ((false, some e), s')) ∧
    (e ≠ .ErrCacheClusterDoesNotExist → b.cacheCluster.Delete id s = (some e, s') →
      b.Deprovision instanceID true s = .ok ((false, some e), s')) ∧
    (∀ svc d, e ≠ .ErrCacheClusterDoesNotExist →
      b.catalog.FindService bd.ServiceID = (svc, true) → svc.Bindable = true →
      b.cacheCluster.Describe id s = ((d, some e), s') →
      b.Bind instanceID bindingID bd s = .ok (({ Credentials := none }, some e), s')) ∧
    (∀ d, e ≠ .ErrCacheClusterDoesNotExist →
      b.cacheCluster.Describe id s = ((d, some e), s') →
      b.LastOperation instanceID s = .ok (({ State := LastOperationFailed }, some e), s')) ∧
    (∀ pp plan,
      (if b.allowUserProvisionParameters then
        ext.decodeProvisionParameters pd.Parameters else .ok {}) = .ok pp →
      b.catalog.FindServicePlan pd.PlanID = (plan, true) →
      (b.cacheCluster.Create id (b.createCacheCluster ext.now instanceID plan pp pd) s
          = (some e, s') →
        b.Provision ext instanceID pd true s = .ok (({}, false, some e), s')) ∧
      (b.cacheCluster.Create id (b.createCacheCluster ext.now instanceID plan pp pd) s
          = (none, s') →
        b.Provision ext instanceID pd true s = .ok (({}, true, none), s'))) ∧
    (∀ acc resp accepted,
      b.Provision ext instanceID pd acc s = .ok ((resp, accepted, none), s') →
      accepted = true ∧ ∃ pp plan,
        b.catalog.FindServicePlan pd.PlanID = (plan, true) ∧
        b.cacheCluster.Create id (b.createCacheCluster ext.now instanceID plan pp pd) s
          = (none, s')) := by
  refine ⟨?_, ?_, ?_, ?_, ?_, ?_⟩
  · intro up svc plan he hup hfs hu hfp hm
    rw [Update_of_reached ext b instanceID id ud s up svc plan hup hfs hu hfp hid, hm]
    simp [he]
  · intro he hd
    rw [Deprovision_of_reached b instanceID id s hid, hd]
    simp [he]
  · intro svc d he hfs hb hd
    rw [Bind_of_reached b instanceID bindingID id bd s svc hfs hb hid, hd]
    simp [he]
  · intro d he hd
    rw [LastOperation_of_describe_error b instanceID id s s' d e hid hd]
    simp [he]
  · intro pp plan hpp hfp
    constructor
    · intro hc
      rw [Provision_of_reached ext b instanceID id pd s pp plan hpp hfp hid, hc]
    · intro hc
      rw [Provision_of_reached ext b instanceID id pd s pp plan hpp hfp hid, hc]
  · intro acc resp accepted h
    obtain ⟨ha, _, pp, plan, id2, _, hfp, hid2, hc⟩ :=
      Provision_nil_only_after_Create ext b instanceID pd acc s s' resp accepted h
    rw [hid] at hid2
    cases hid2
    exact ⟨ha, pp, plan, hfp, hc⟩

/-- Witness of `backend_errors_returned_unchanged`: the broker with service `"s1"` and
plan `"p1"` over a fake on which every method fails with the error `"Throttling: slow
down"`, then over one whose `Create` answers `ErrCacheClusterDoesNotExist`, then over a
fresh fake, whose `Create` succeeds. -/
theorem backend_errors_returned_unchanged_witness :
    (s1Broker.Update decodingOk uuid1 updateP1 true
        (fakeFailing (.New (str "Throttling: slow down")))).map (fun r => r.1)
      = .ok (false, some (.New (str "Throttling: slow down"))) ∧
    (s1Broker.Deprovision uuid1 true
        (fakeFailing (.New (str "Throttling: slow down")))).map (fun r => r.1)
      = .ok (false, some (.New (str "Throttling: slow down"))) ∧
    (s1Broker.Bind uuid1 (str "binding-1") bindP1
        (fakeFailing (.New (str "Throttling: slow down")))).map (fun r => r.1)
      = .ok ({ Credentials := none }, some (.New (str "Throttling: slow down"))) ∧
    (s1Broker.LastOperation uuid1
        (fakeFailing (.New (str "Throttling: slow down")))).map (fun r => r.1)
      = .ok ({ State := LastOperationFailed }, some (.New (str "Throttling: slow down"))) ∧
    (s1Broker.Provision decodingOk uuid1 provisionP1 true
        (fakeFailing .ErrCacheClusterDoesNotExist)).map (fun r => r.1)
      = .ok ({}, false, some .ErrCacheClusterDoesNotExist) ∧
    (s1Broker.Provision decodingOk uuid1 provisionP1 true {}).map (fun r => r.1)
      = .ok ({}, true, none) :=
  have h := fun s' => backend_errors_returned_unchanged decodingOk s1Broker uuid1
    (str "binding-1") (str "cf-0123456789abcdef0") provisionP1 updateP1 bindP1
    (fakeFailing (.New (str "Throttling: slow down"))) s' (.New (str "Throttling: slow down"))
    (by decide)
  have hp := fun f s' e => backend_errors_returned_unchanged decodingOk s1Broker uuid1
    (str "binding-1") (str "cf-0123456789abcdef0") provisionP1 updateP1 bindP1 f s' e
    (by decide)
  ⟨by rw [(h _).1 {} openService planP1 (by decide) rfl (by decide) rfl (by decide) rfl]
      rfl,
   by rw [(h _).2.1 (by decide) rfl]; rfl,
   by rw [(h _).2.2.1 openService _ (by decide) (by decide) rfl rfl]; rfl,
   by rw [(h _).2.2.2.1 _ (by decide) rfl]; rfl,
   by rw [((hp (fakeFailing .ErrCacheClusterDoesNotExist) _
        .ErrCacheClusterDoesNotExist).2.2.2.2.1 {} planP1 rfl (by decide)).1 rfl]
      rfl,
   by rw [((hp {} _ .ErrAsyncRequired).2.2.2.2.1 {} planP1 rfl (by decide)).2 rfl]; rfl⟩

/-! ## Theorems: credentials and description -/

/-- Claim C13: a `Bind` on a found, bindable service whose `Describe`, called with the
derived identifier, succeeds with details `d` returns a nil error and credentials with
`Host = d.Endpoint`, `Port = d.Port` and `Name` the derived identifier, the one passed
to `Describe`; and `Bind` returns the same for any two binding IDs, in every case. -/
theorem Bind_credentials {σ Params : Type} (b : ElastiCacheBroker σ)
    (instanceID bindingID otherBindingID id : GoString) (bd : BindDetails Params) (s s' : σ)
    (svc : Service) (d : CacheClusterDetails)
    (hfs : b.catalog.FindService bd.ServiceID = (svc, true))
    (hb : svc.Bindable = true)
    (hid : b.cacheClusterIdentifier instanceID = .ok id)
    (hd : b.cacheCluster.Describe id s = ((d, none), s')) :
    b.Bind instanceID bindingID bd s =
        .ok (({ Credentials := some { Host := d.Endpoint, Port := d.Port, Name := id } }, none),
          s') ∧
      (∀ (instanceID2 : GoString) (bd2 : BindDetails Params) (s2 : σ),
        b.Bind instanceID2 bindingID bd2 s2 = b.Bind instanceID2 otherBindingID bd2 s2) := by
  constructor
  · rw [Bind_of_reached b instanceID bindingID id bd s svc hfs hb hid, hd]
  · intro instanceID2 bd2 s2
    rfl

/-- Witness of `Bind_credentials`: the fake records the derived identifier as the one
`Describe` was called with, and the credentials carry its endpoint, its port and that
identifier. -/
theorem Bind_credentials_witness :
    s1Broker.Bind uuid1 (str "binding-1") bindP1 fakeAvailable =
        .ok (({ Credentials := some { Host := fakeAvailable.DescribeCacheClusterDetails.Endpoint,
                                      Port := fakeAvailable.DescribeCacheClusterDetails.Port,
                                      Name := str "cf-0123456789abcdef0" } }, none),
          (FakeCacheCluster.Describe (str "cf-0123456789abcdef0") fakeAvailable).2) ∧
      (FakeCacheCluster.Describe (str "cf-0123456789abcdef0") fakeAvailable).2.DescribeID
        = str "cf-0123456789abcdef0" ∧
      fakeAvailable.DescribeCacheClusterDetails.Endpoint = str "cache.example.com" ∧
      fakeAvailable.DescribeCacheClusterDetails.Port = 6379 :=
  ⟨(Bind_credentials s1Broker uuid1 (str "binding-1") (str "binding-2")
      (str "cf-0123456789abcdef0") bindP1 fakeAvailable _ openService _ (by decide) rfl
      (by decide) rfl).1,
   rfl, rfl, rfl⟩

/-- Claim C14: for every instance ID whose identifier is derived and every details
returned by a successful `Describe`, `LastOperation` returns a nil error and the
description `"Cache Cluster Instance '<identifier>' status is '<status>'"`, which contains
the identifier and the status; when the status is `"available"` the state is succeeded. -/
theorem LastOperation_description {σ : Type} (b : ElastiCacheBroker σ)
    (instanceID id : GoString) (s s' : σ) (d : CacheClusterDetails)
    (hid : b.cacheClusterIdentifier instanceID = .ok id)
    (hd : b.cacheCluster.Describe id s = ((d, none), s')) :
    ∃ r, b.LastOperation instanceID s = .ok ((r, none), s') ∧
      r.Description = str "Cache Cluster Instance '" ++ id ++ str "' status is '" ++
        d.Status ++ str "'" ∧
      id <:+: r.Description ∧ d.Status <:+: r.Description ∧
      (d.Status = str "available" → r.State = LastOperationSucceeded) := by
  refine ⟨_, LastOperation_of_describe_ok b instanceID id s s' d hid hd, rfl, ?_, ?_, ?_⟩
  · exact ⟨str "Cache Cluster Instance '", str "' status is '" ++ d.Status ++ str "'",
      by simp [List.append_assoc]⟩
  · exact ⟨str "Cache Cluster Instance '" ++ id ++ str "' status is '", str "'",
      by simp [List.append_assoc]⟩
  · intro ha
    simp only [ha]
    decide

/-- Witness of `LastOperation_description`: prefix `"cf"`, a UUID, status `"available"`. -/
theorem LastOperation_description_witness :
    ∃ r, s1Broker.LastOperation uuid1 fakeAvailable =
        .ok ((r, none), (FakeCacheCluster.Describe (str "cf-0123456789abcdef0")
          fakeAvailable).2) ∧
      r.Description = str "Cache Cluster Instance 'cf-0123456789abcdef0' status is 'available'" ∧
      r.State = LastOperationSucceeded :=
  have h := LastOperation_description s1Broker uuid1 (str "cf-0123456789abcdef0")
    fakeAvailable _ fakeAvailable.DescribeCacheClusterDetails (by decide) rfl
  h.elim fun r hr => ⟨r, hr.1, hr.2.1.trans (by decide), hr.2.2.2.2 (by decide)⟩

/-! ## Theorems: tags and plan fields -/

/-- Lookup in a list with one more entry in front. -/
theorem lookup_cons_eq (x y k' : GoString) (t : Tags) :
    List.lookup k' ((x, y) :: t) = if k' = x then some y else List.lookup k' t := by
  by_cases h : k' = x
  · subst h; simp [List.lookup]
  · have h2 : (k' == x) = false := beq_eq_false_iff_ne.mpr h
    simp [List.lookup, h, h2]

/-- Lookup after the entries with key `k` have been replaced. -/
theorem lookup_map_replace (m : Tags) (k v k' : GoString) :
    (m.map (fun kv => if kv.1 = k then (k, v) else kv)).lookup k' =
      if k' = k then (if (m.any fun kv => kv.1 == k) = true then some v else none)
      else m.lookup k' := by
  induction m with
  | nil => simp
  | cons a t ih =>
    obtain ⟨x, y⟩ := a
    rw [List.map_cons, List.any_cons]
    by_cases hx : x = k
    · subst hx
      rw [if_pos rfl, lookup_cons_eq, lookup_cons_eq, ih]
      by_cases hk : k' = x
      · simp [hk]
      · simp [hk]
    · rw [if_neg hx, lookup_cons_eq, lookup_cons_eq, ih]
      have hx2 : (x == k) = false := beq_eq_false_iff_ne.mpr hx
      by_cases hk : k' = k
      · have hkx : k' ≠ x := fun h => hx (h.symm.trans hk)
        rw [hx2, Bool.false_or, if_neg hkx, if_pos hk, if_pos hk]
      · simp [hk]

/-- Lookup after an entry with a new key has been added at the end. -/
theorem lookup_append_single (m : Tags) (k v k' : GoString)
    (h : (m.any fun kv => kv.1 == k) = false) :
    (m ++ [(k, v)]).lookup k' = if k' = k then some v else m.lookup k' := by
  induction m with
  | nil => rw [List.nil_append, lookup_cons_eq]
  | cons a t ih =>
    obtain ⟨x, y⟩ := a
    rw [List.any_cons, Bool.or_eq_false_iff] at h
    have hx : x ≠ k := fun hh => by simp [hh] at h
    rw [List.cons_append, lookup_cons_eq, lookup_cons_eq, ih h.2]
    by_cases hkx : k' = x
    · have : k' ≠ k := fun hh => hx (hkx.symm.trans hh)
      simp [hkx, this, hx]
    · simp [hkx]

/-- The assignment `m[k] = v` sets the value at `k` and leaves every other key as it was. -/
theorem Tags.lookup_set (m : Tags) (k v k' : GoString) :
    (m.set k v).lookup k' = if k' = k then some v else m.lookup k' := by
  have hf : (fun kv : GoString × GoString => if kv.1 == k then (k, v) else kv)
      = (fun kv => if kv.1 = k then (k, v) else kv) := by
    funext kv
    by_cases h : kv.1 = k <;> simp [h]
  unfold Tags.set
  rw [hf]
  by_cases h : (m.any fun kv => kv.1 == k) = true
  · rw [if_pos h, lookup_map_replace, h]; simp
  · rw [if_neg h, lookup_append_single m k v k' (Bool.eq_false_iff.mpr h)]

/-- A literal that does not end in `t` is no string of the form `action ++ t`. -/
theorem ne_append_of_not_suffix (lit t : GoString) (h : ¬ t <:+ lit) (action : GoString) :
    lit ≠ action ++ t :=
  fun e => h (e ▸ List.suffix_append action t)

/-- The value of every key in the map built by `cacheTags`. -/
theorem cacheTags_lookup {σ : Type} (b : ElastiCacheBroker σ)
    (now action serviceID planID organizationID spaceID k : GoString) :
    (b.cacheTags now action serviceID planID organizationID spaceID).lookup k =
      if k = str "Space ID" ∧ spaceID ≠ [] then some spaceID
      else if k = str "Organization ID" ∧ organizationID ≠ [] then some organizationID
      else if k = str "Plan ID" ∧ planID ≠ [] then some planID
      else if k = str "Service ID" ∧ serviceID ≠ [] then some serviceID
      else if k = action ++ str " at" then some now
      else if k = action ++ str " by" then some (str "AWS ElastiCache Service Broker")
      else if k = str "Owner" then some (str "Cloud Foundry")
      else none := by
  unfold cacheTags
  by_cases h1 : serviceID = [] <;> by_cases h2 : planID = [] <;>
    by_cases h3 : organizationID = [] <;> by_cases h4 : spaceID = [] <;>
    simp [h1, h2, h3, h4, Tags.lookup_set]

/-- Claim C15: for every action and all four IDs, the map built by `cacheTags` holds
`Owner` = `"Cloud Foundry"`, `"<action> by"` = `"AWS ElastiCache Service Broker"` and
`"<action> at"` = the formatted time; it holds `"Service ID"`, `"Plan ID"`,
`"Organization ID"`, `"Space ID"` exactly when the matching argument is non-empty, with
that argument as the value; and it holds no other key. -/
theorem cacheTags_entries {σ : Type} (b : ElastiCacheBroker σ)
    (now action serviceID planID organizationID spaceID : GoString) :
    (b.cacheTags now action serviceID planID organizationID spaceID).lookup (str "Owner")
      = some (str "Cloud Foundry") ∧
    (b.cacheTags now action serviceID planID organizationID spaceID).lookup (action ++ str " by")
      = some (str "AWS ElastiCache Service Broker") ∧
    (b.cacheTags now action serviceID planID organizationID spaceID).lookup (action ++ str " at")
      = some now ∧
    (b.cacheTags now action serviceID planID organizationID spaceID).lookup (str "Service ID")
      = (if serviceID = [] then none else some serviceID) ∧
    (b.cacheTags now action serviceID planID organizationID spaceID).lookup (str "Plan ID")
      = (if planID = [] then none else some planID) ∧
    (b.cacheTags now action serviceID planID organizationID spaceID).lookup
        (str "Organization ID") = (if organizationID = [] then none else some organizationID) ∧
    (b.cacheTags now action serviceID planID organizationID spaceID).lookup (str "Space ID")
      = (if spaceID = [] then none else some spaceID) ∧
    (∀ k, k ∉ [str "Owner", action ++ str " by", action ++ str " at", str "Service ID",
        str "Plan ID", str "Organization ID", str "Space ID"] →
      (b.cacheTags now action serviceID planID organizationID spaceID).lookup k = none) := by
  have o1 := ne_append_of_not_suffix (str "Owner") (str " by") (by decide) action
  have o2 := ne_append_of_not_suffix (str "Owner") (str " at") (by decide) action
  have s1 := ne_append_of_not_suffix (str "Service ID") (str " by") (by decide) action
  have s2 := ne_append_of_not_suffix (str "Service ID") (str " at") (by decide) action
  have p1 := ne_append_of_not_suffix (str "Plan ID") (str " by") (by decide) action
  have p2 := ne_append_of_not_suffix (str "Plan ID") (str " at") (by decide) action
  have g1 := ne_append_of_not_suffix (str "Organization ID") (str " by") (by decide) action
  have g2 := ne_append_of_not_suffix (str "Organization ID") (str " at") (by decide) action
  have c1 := ne_append_of_not_suffix (str "Space ID") (str " by") (by decide) action
  have c2 := ne_append_of_not_suffix (str "Space ID") (str " at") (by decide) action
  have ba : action ++ str " by" ≠ action ++ str " at" :=
    fun e => absurd (List.append_cancel_left e) (by decide)
  have d : ∀ x y : String, decide (str x = str y) = false → str x ≠ str y :=
    fun x y h e => by simp [e] at h
  refine ⟨?_, ?_, ?_, ?_, ?_, ?_, ?_, ?_⟩
  · rw [cacheTags_lookup]
    simp [o1, o2, d "Owner" "Space ID" (by decide), d "Owner" "Organization ID" (by decide),
      d "Owner" "Plan ID" (by decide), d "Owner" "Service ID" (by decide)]
  · rw [cacheTags_lookup]
    simp [Ne.symm c1, Ne.symm g1, Ne.symm p1, Ne.symm s1, ba]
  · rw [cacheTags_lookup]
    simp [Ne.symm c2, Ne.symm g2, Ne.symm p2, Ne.symm s2]
  · rw [cacheTags_lookup]
    by_cases h : serviceID = [] <;>
    simp [h, s1, s2, d "Service ID" "Space ID" (by decide),
      d "Service ID" "Organization ID" (by decide), d "Service ID" "Plan ID" (by decide),
      d "Service ID" "Owner" (by decide)]
  · rw [cacheTags_lookup]
    by_cases h : planID = [] <;>
    simp [h, p1, p2, d "Plan ID" "Space ID" (by decide),
      d "Plan ID" "Organization ID" (by decide), d "Plan ID" "Service ID" (by decide),
      d "Plan ID" "Owner" (by decide)]
  · rw [cacheTags_lookup]
    by_cases h : organizationID = [] <;>
    simp [h, g1, g2, d "Organization ID" "Space ID" (by decide),
      d "Organization ID" "Plan ID" (by decide), d "Organization ID" "Service ID" (by decide),
      d "Organization ID" "Owner" (by decide)]
  · rw [cacheTags_lookup]
    by_cases h : spaceID = [] <;>
    simp [h, c1, c2, d "Space ID" "Organization ID" (by decide),
      d "Space ID" "Plan ID" (by decide), d "Space ID" "Service ID" (by decide),
      d "Space ID" "Owner" (by decide)]
  · intro k hk
    simp only [List.mem_cons, List.mem_singleton, List.not_mem_nil, or_false, not_or] at hk
    obtain ⟨k1, k2, k3, k4, k5, k6, k7⟩ := hk
    rw [cacheTags_lookup]
    simp [k1, k2, k3, k4, k5, k6, k7]

/-- Witness of `cacheTags_entries`: the action `"Created"`, service `"s1"`, plan `"p1"`,
organization `"org-1"` and no space; the key `"Name"` is not in the map. -/
theorem cacheTags_entries_witness :
    (cfBroker.cacheTags (str "04 Nov 26 09:20 +0000") (str "Created") (str "s1") (str "p1")
        (str "org-1") []).lookup (str "Owner") = some (str "Cloud Foundry") ∧
    (cfBroker.cacheTags (str "04 Nov 26 09:20 +0000") (str "Created") (str "s1") (str "p1")
        (str "org-1") []).lookup (str "Created" ++ str " by")
      = some (str "AWS ElastiCache Service Broker") ∧
    (cfBroker.cacheTags (str "04 Nov 26 09:20 +0000") (str "Created") (str "s1") (str "p1")
        (str "org-1") []).lookup (str "Organization ID")
      = (if str "org-1" = [] then none else some (str "org-1")) ∧
    (cfBroker.cacheTags (str "04 Nov 26 09:20 +0000") (str "Created") (str "s1") (str "p1")
        (str "org-1") []).lookup (str "Space ID")
      = (if ([] : GoString) = [] then none else some []) ∧
    (cfBroker.cacheTags (str "04 Nov 26 09:20 +0000") (str "Created") (str "s1") (str "p1")
        (str "org-1") []).lookup (str "Name") = none :=
  have h := cacheTags_entries cfBroker (str "04 Nov 26 09:20 +0000") (str "Created") (str "s1")
    (str "p1") (str "org-1") []
  ⟨h.1, h.2.1, h.2.2.2.2.2.1, h.2.2.2.2.2.2.1, h.2.2.2.2.2.2.2 (str "Name") (by decide)⟩

/-- The map built for a provision of service `"s1"`, plan `"p1"` in organization
`"org-1"` without a space: six keys, no `"Space ID"`, no `"Updated by"`. -/
theorem cacheTags_created_example :
    cfBroker.cacheTags (str "04 Nov 26 09:20 +0000") (str "Created") (str "s1") (str "p1")
        (str "org-1") [] =
      [(str "Owner", str "Cloud Foundry"),
       (str "Created by", str "AWS ElastiCache Service Broker"),
       (str "Created at", str "04 Nov 26 09:20 +0000"),
       (str "Service ID", str "s1"), (str "Plan ID", str "p1"),
       (str "Organization ID", str "org-1")] ∧
    (cfBroker.cacheTags (str "04 Nov 26 09:20 +0000") (str "Created") (str "s1") (str "p1")
        (str "org-1") []).lookup (str "Space ID") = none ∧
    (cfBroker.cacheTags (str "04 Nov 26 09:20 +0000") (str "Created") (str "s1") (str "p1")
        (str "org-1") []).lookup (str "Updated by") = none := by
  decide

/-- Claim C16 fails for negative numbers: a plan with `Port = -1` and
`NumCacheNodes = -2`, both non-zero, yields a spec whose port and node count are left at
zero, because the guards of `cacheClusterFromPlan` are `> 0`. -/
theorem cacheClusterFromPlan_drops_negative :
    negativePlan.ElastiCacheProperties.Port ≠ 0 ∧
    negativePlan.ElastiCacheProperties.NumCacheNodes ≠ 0 ∧
    (cfBroker.cacheClusterFromPlan negativePlan).Port = 0 ∧
    (cfBroker.cacheClusterFromPlan negativePlan).NumCacheNodes = 0 ∧
    (cfBroker.cacheClusterFromPlan negativePlan).Port ≠ negativePlan.ElastiCacheProperties.Port ∧
    (cfBroker.cacheClusterFromPlan negativePlan).NumCacheNodes
      ≠ negativePlan.ElastiCacheProperties.NumCacheNodes := by
  decide

/-- Claim C16 as amended: for every service plan the spec built by `cacheClusterFromPlan`
copies the engine; it holds the plan's engine version, instance class and subnet group
when they are non-empty and its security groups when there is at least one, the plan's
port and node count when they are positive, and the zero value of the field otherwise;
every other field of the spec is left at its zero value. -/
theorem cacheClusterFromPlan_sparse_overlay {σ : Type} (b : ElastiCacheBroker σ)
    (servicePlan : ServicePlan) :
    b.cacheClusterFromPlan servicePlan =
      { Engine := servicePlan.ElastiCacheProperties.Engine
        EngineVersion :=
          if servicePlan.ElastiCacheProperties.EngineVersion ≠ [] then
            servicePlan.ElastiCacheProperties.EngineVersion else []
        Port :=
          if 0 < servicePlan.ElastiCacheProperties.Port then
            servicePlan.ElastiCacheProperties.Port else 0
        NumCacheNodes :=
          if 0 < servicePlan.ElastiCacheProperties.NumCacheNodes then
            servicePlan.ElastiCacheProperties.NumCacheNodes else 0
        CacheInstanceClass :=
          if servicePlan.ElastiCacheProperties.CacheInstanceClass ≠ [] then
            servicePlan.ElastiCacheProperties.CacheInstanceClass else []
        CacheSubnetGroupName :=
          if servicePlan.ElastiCacheProperties.CacheSubnetGroupName ≠ [] then
            servicePlan.ElastiCacheProperties.CacheSubnetGroupName else []
        CacheSecurityGroups :=
          if servicePlan.ElastiCacheProperties.CacheSecurityGroups ≠ [] then
            servicePlan.ElastiCacheProperties.CacheSecurityGroups else []
        CacheClusterId := [], Status := [], Endpoint := [], Tags := [] } := by
  unfold cacheClusterFromPlan
  by_cases h1 : servicePlan.ElastiCacheProperties.EngineVersion = [] <;>
  by_cases h2 : 0 < servicePlan.ElastiCacheProperties.Port <;>
  by_cases h3 : 0 < servicePlan.ElastiCacheProperties.NumCacheNodes <;>
  by_cases h4 : servicePlan.ElastiCacheProperties.CacheInstanceClass = [] <;>
  by_cases h5 : servicePlan.ElastiCacheProperties.CacheSubnetGroupName = [] <;>
  by_cases h6 : servicePlan.ElastiCacheProperties.CacheSecurityGroups = [] <;>
  simp [h1, h2, h3, h4, h5, h6, List.length_pos]

/-! ## Theorems: the applyImmediately flag -/

/-- Claim C17: for an `Update` that reaches `Modify` on the fake backend, the flag recorded
by `Modify` is false when user update parameters are not permitted, and is the decoded
`ApplyImmediately` when they are permitted and decode; and when they are not permitted,
`Update` returns the same for every decoder and every `details.Parameters` (they are not
decoded, so they cannot make it fail). -/
theorem Update_applyImmediately_flag {Params : Type} (ext : External Params)
    (cachePrefix : GoString) (catalog : Catalog) (allowP allowU : Bool)
    (instanceID id : GoString) (ud : UpdateDetails Params) (f : FakeCacheCluster)
    (svc : Service) (plan : ServicePlan)
    (hfs : catalog.FindService ud.ServiceID = (svc, true))
    (hu : svc.PlanUpdateable = true)
    (hfp : catalog.FindServicePlan ud.PlanID = (plan, true))
    (hid : (fakeBroker cachePrefix catalog allowP allowU).cacheClusterIdentifier instanceID
      = .ok id) :
    (allowU = false →
      ((fakeBroker cachePrefix catalog allowP allowU).Update ext instanceID ud true f).map
          (fun r => (r.2.ModifyCalled, r.2.ModifyID, r.2.ModifyApplyImmediately))
        = .ok (true, id, false)) ∧
    (allowU = true → ∀ up, ext.decodeUpdateParameters ud.Parameters = .ok up →
      ((fakeBroker cachePrefix catalog allowP allowU).Update ext instanceID ud true f).map
          (fun r => (r.2.ModifyCalled, r.2.ModifyID, r.2.ModifyApplyImmediately))
        = .ok (true, id, up.ApplyImmediately)) ∧
    (allowU = false → ∀ (ext2 : External Params) (ud2 : UpdateDetails Params),
      ext2.now = ext.now → ud2.ServiceID = ud.ServiceID → ud2.PlanID = ud.PlanID →
      (fakeBroker cachePrefix catalog allowP allowU).Update ext2 instanceID ud2 true f =
        (fakeBroker cachePrefix catalog allowP allowU).Update ext instanceID ud true f) := by
  refine ⟨?_, ?_, ?_⟩
  · intro ha
    subst ha
    rw [Update_of_reached ext (fakeBroker cachePrefix catalog allowP false) instanceID id ud f {}
      svc plan rfl hfs hu hfp hid]
    cases hm : f.ModifyError with
    | none => simp [fakeBroker, FakeCacheCluster.asCacheCluster, FakeCacheCluster.Modify, hm,
        Except.map]
    | some e =>
      by_cases he : e = .ErrCacheClusterDoesNotExist <;>
        simp [fakeBroker, FakeCacheCluster.asCacheCluster, FakeCacheCluster.Modify, hm,
          Except.map, he]
  · intro ha up hup
    subst ha
    rw [Update_of_reached ext (fakeBroker cachePrefix catalog allowP true) instanceID id ud f up
      svc plan (by simpa [fakeBroker] using hup) hfs hu hfp hid]
    cases hm : f.ModifyError with
    | none => simp [fakeBroker, FakeCacheCluster.asCacheCluster, FakeCacheCluster.Modify, hm,
        Except.map]
    | some e =>
      by_cases he : e = .ErrCacheClusterDoesNotExist <;>
        simp [fakeBroker, FakeCacheCluster.asCacheCluster, FakeCacheCluster.Modify, hm,
          Except.map, he]
  · intro ha ext2 ud2 h1 h2 h3
    subst ha
    simp [Update, fakeBroker, modifyCacheCluster, h1, h2, h3]

/-- Witness of `Update_applyImmediately_flag`: service `"s1"` and plan `"p1"`, a decoder
that would yield `ApplyImmediately = true`. Not permitted, the recorded flag is false;
permitted, it is true. -/
theorem Update_applyImmediately_flag_witness :
    ((fakeBroker (str "cf") (catalogOf openService planP1) false false).Update
        decodingApplyNow uuid1 updateP1 true {}).map
        (fun r => (r.2.ModifyCalled, r.2.ModifyID, r.2.ModifyApplyImmediately))
      = .ok (true, str "cf-0123456789abcdef0", false) ∧
    ((fakeBroker (str "cf") (catalogOf openService planP1) false true).Update
        decodingApplyNow uuid1 updateP1 true {}).map
        (fun r => (r.2.ModifyCalled, r.2.ModifyID, r.2.ModifyApplyImmediately))
      = .ok (true, str "cf-0123456789abcdef0", true) ∧
    (fakeBroker (str "cf") (catalogOf openService planP1) false false).Update
        decodingFails uuid1 updateP1 true {} =
      (fakeBroker (str "cf") (catalogOf openService planP1) false false).Update
        decodingApplyNow uuid1 updateP1 true {} :=
  ⟨(Update_applyImmediately_flag decodingApplyNow (str "cf") (catalogOf openService planP1)
      false false uuid1 (str "cf-0123456789abcdef0") updateP1 {} openService planP1
      (by decide) rfl (by decide) (by decide)).1 rfl,
   (Update_applyImmediately_flag decodingApplyNow (str "cf") (catalogOf openService planP1)
      false true uuid1 (str "cf-0123456789abcdef0") updateP1 {} openService planP1
      (by decide) rfl (by decide) (by decide)).2.1 rfl _ rfl,
   (Update_applyImmediately_flag decodingApplyNow (str "cf") (catalogOf openService planP1)
      false false uuid1 (str "cf-0123456789abcdef0") updateP1 {} openService planP1
      (by decide) rfl (by decide) (by decide)).2.2 rfl decodingFails updateP1 rfl rfl rfl⟩

/-! ## Theorems: the AWS-backed `Modify` -/

/-- After a successful `ModifyCacheCluster`, `Modify` returns nil when the spec has no
tags, when the account lookup fails, and when the user ARN has at least five
colon-separated fields, whatever the tag attachment answers; it panics when the user ARN
has fewer than five fields. -/
theorem Modify_after_success {ω : Type} (r : ElastiCacheCluster ω) (ID : GoString)
    (d : CacheClusterDetails) (applyImmediately : Bool) (w w1 : ω)
    (hm : r.cachesvc.ModifyCacheCluster (r.buildModifyCacheClusterInput ID d applyImmediately) w
      = (none, w1)) :
    (d.Tags = [] → r.Modify ID d applyImmediately w = .ok (none, w1)) ∧
    (∀ err w2, d.Tags ≠ [] → r.iamsvc.GetUser w1 = (.error err, w2) →
      r.Modify ID d applyImmediately w = .ok (none, w2)) ∧
    (∀ arn w2, d.Tags ≠ [] → r.iamsvc.GetUser w1 = (.ok arn, w2) →
      5 ≤ (stringsSplit arn 58).length →
      ∃ w3, r.Modify ID d applyImmediately w = .ok (none, w3)) ∧
    (∀ arn w2, d.Tags ≠ [] → r.iamsvc.GetUser w1 = (.ok arn, w2) →
      (stringsSplit arn 58).length < 5 →
      r.Modify ID d applyImmediately w = .error .indexOutOfRange) := by
  refine ⟨?_, ?_, ?_, ?_⟩
  · intro ht
    simp [ElastiCacheCluster.Modify, hm, ht]
  · intro err w2 ht hu
    have hl : d.Tags.length > 0 := List.length_pos.mpr ht
    simp [ElastiCacheCluster.Modify, hm, hl, ElastiCacheCluster.cacheClusterARN, UserAccount, hu]
  · intro arn w2 ht hu h5
    have hl : d.Tags.length > 0 := List.length_pos.mpr ht
    obtain ⟨account, ha⟩ : ∃ account, (stringsSplit arn 58)[4]? = some account :=
      ⟨_, List.getElem?_eq_getElem (by omega)⟩
    simp [ElastiCacheCluster.Modify, hm, hl, ElastiCacheCluster.cacheClusterARN, UserAccount, hu,
      ha]
  · intro arn w2 ht hu h5
    have hl : d.Tags.length > 0 := List.length_pos.mpr ht
    have ha : (stringsSplit arn 58)[4]? = none := List.getElem?_eq_none (by omega)
    simp [ElastiCacheCluster.Modify, hm, hl, ElastiCacheCluster.cacheClusterARN, UserAccount, hu,
      ha]

/-- Claim C18, at the failing input: `ModifyCacheCluster` succeeds, the spec carries a tag,
and the account lookup returns the user ARN `"arn:aws:iam"`, which has three
colon-separated fields; `userAccount[4]` is out of range, so `Modify` panics instead of
returning nil. With a usual ARN of six fields it returns nil, also when the tag
attachment fails. -/
theorem Modify_short_arn_panics :
    stringsSplit (str "arn:aws:iam") 58 = [str "arn", str "aws", str "iam"] ∧
    (awsStub none (.ok (str "arn:aws:iam")) none).Modify (str "cf-0123456789abcdef0")
        taggedSpec false () = .error .indexOutOfRange ∧
    stringsSplit (str "arn:aws:iam::123456789012:user/broker") 58 =
      [str "arn", str "aws", str "iam", str "", str "123456789012", str "user/broker"] ∧
    (awsStub none (.ok (str "arn:aws:iam::123456789012:user/broker"))
        (some (.awsError (str "AccessDenied") (str "not allowed")))).Modify
        (str "cf-0123456789abcdef0") taggedSpec false () = .ok (none, ()) := by
  decide

/-! ## Theorems: configuration -/

/-- Claim C19: `Config.Validate` of package `main` reports the first failing check in the
order LogLevel, Username, Password, nested configuration, each with its own text, the
nested error `e` as `"Validating ElastiCache configuration: "` followed by the text of
`e`; an empty Region and, after it, an empty CachePrefix are such nested errors; and it
returns nil exactly when the three strings are non-empty and the nested `Validate`
returns nil. -/
theorem Config_Validate_first_failure (c : Main.Config) :
    (c.LogLevel = [] →
      c.Validate = some (.New (str "Must provide a non-empty LogLevel"))) ∧
    (c.LogLevel ≠ [] → c.Username = [] →
      c.Validate = some (.New (str "Must provide a non-empty Username"))) ∧
    (c.LogLevel ≠ [] → c.Username ≠ [] → c.Password = [] →
      c.Validate = some (.New (str "Must provide a non-empty Password"))) ∧
    (c.LogLevel ≠ [] → c.Username ≠ [] → c.Password ≠ [] →
      ∀ e, c.ElastiCacheConfig.Validate = some e →
        c.Validate =
          some (.New (str "Validating ElastiCache configuration: " ++ e.Error))) ∧
    (c.ElastiCacheConfig.Region = [] →
      c.ElastiCacheConfig.Validate = some (.New (str "Must provide a non-empty Region"))) ∧
    (c.ElastiCacheConfig.Region ≠ [] → c.ElastiCacheConfig.CachePrefix = [] →
      c.ElastiCacheConfig.Validate
        = some (.New (str "Must provide a non-empty CachePrefix"))) ∧
    (c.Validate = none ↔
      c.LogLevel ≠ [] ∧ c.Username ≠ [] ∧ c.Password ≠ [] ∧
        c.ElastiCacheConfig.Validate = none) := by
  refine ⟨?_, ?_, ?_, ?_, ?_, ?_, ?_⟩
  · intro h1
    simp [Main.Config.Validate, h1]
  · intro h1 h2
    simp [Main.Config.Validate, h1, h2]
  · intro h1 h2 h3
    simp [Main.Config.Validate, h1, h2, h3]
  · intro h1 h2 h3 e he
    simp [Main.Config.Validate, h1, h2, h3, he]
  · intro h1
    simp [Config.Validate, h1]
  · intro h1 h2
    simp [Config.Validate, h1, h2]
  · unfold Main.Config.Validate
    by_cases h1 : c.LogLevel = []
    · simp [h1]
    · by_cases h2 : c.Username = []
      · simp [h1, h2]
      · by_cases h3 : c.Password = []
        · simp [h1, h2, h3]
        · cases he : c.ElastiCacheConfig.Validate <;> simp [h1, h2, h3]

/-- Witness of `Config_Validate_first_failure`: the cases of `config_test.go`. The valid
configuration gives nil; an empty LogLevel, Username or Password gives its text; the zero
nested configuration gives the text of the empty Region behind the nested heading. -/
theorem Config_Validate_first_failure_witness :
    validConfig.Validate = none ∧
    ({ validConfig with LogLevel := [] } : Main.Config).Validate
      = some (.New (str "Must provide a non-empty LogLevel")) ∧
    ({ validConfig with Username := [] } : Main.Config).Validate
      = some (.New (str "Must provide a non-empty Username")) ∧
    ({ validConfig with Password := [] } : Main.Config).Validate
      = some (.New (str "Must provide a non-empty Password")) ∧
    ({ validConfig with ElastiCacheConfig := { Catalog := emptyCatalog } } : Main.Config).Validate
      = some (.New
          (str "Validating ElastiCache configuration: Must provide a non-empty Region")) :=
  ⟨(Config_Validate_first_failure validConfig).2.2.2.2.2.2.mpr
      ⟨by decide, by decide, by decide, by decide⟩,
   (Config_Validate_first_failure { validConfig with LogLevel := [] }).1 rfl,
   (Config_Validate_first_failure { validConfig with Username := [] }).2.1 (by decide) rfl,
   (Config_Validate_first_failure { validConfig with Password := [] }).2.2.1 (by decide)
     (by decide) rfl,
   ((Config_Validate_first_failure
      { validConfig with ElastiCacheConfig := { Catalog := emptyCatalog } }).2.2.2.1
      (by decide) (by decide) (by decide) _
      ((Config_Validate_first_failure
        { validConfig with ElastiCacheConfig := { Catalog := emptyCatalog } }).2.2.2.2.1
        rfl)).trans (by decide)⟩

/-! ## Theorems: the backend calls of each operation -/

/-- `Provision` leaves the backend state as it was or applies `Create` once. -/
theorem Provision_frame {σ Params : Type} (ext : External Params) (b : ElastiCacheBroker σ)
    (instanceID : GoString) (pd : ProvisionDetails Params) (acc : Bool) (s : σ) :
    OneCallAtMost (b.cacheClusterIdentifier instanceID) (b.Provision ext instanceID pd acc s) s
      (fun id (inst : CacheClusterDetails) => (b.cacheCluster.Create id inst s).2) := by
  unfold OneCallAtMost
  cases acc
  · exact Or.inr (Or.inl ⟨_, by simp only [Provision]; rfl⟩)
  · rcases hpp : (if b.allowUserProvisionParameters then
        ext.decodeProvisionParameters pd.Parameters else .ok {}) with e | pp
    · exact Or.inr (Or.inl ⟨_, by simp only [Provision, hpp]; rfl⟩)
    · rcases hfp : b.catalog.FindServicePlan pd.PlanID with ⟨plan, found⟩
      cases found
      · exact Or.inr (Or.inl ⟨_, by simp only [Provision, hpp, hfp]; rfl⟩)
      · rcases hid : b.cacheClusterIdentifier instanceID with p | id
        · exact Or.inl ⟨p, rfl, by simp only [Provision, hpp, hfp, hid]; rfl⟩
        · refine Or.inr (Or.inr ⟨id, b.createCacheCluster ext.now instanceID plan pp pd, ?_⟩)
          beta_reduce
          rw [Provision_of_reached ext b instanceID id pd s pp plan hpp hfp hid]
          rcases hc : b.cacheCluster.Create id
              (b.createCacheCluster ext.now instanceID plan pp pd) s with ⟨oe, s2⟩
          cases oe with
          | some e => exact ⟨_, rfl, rfl⟩
          | none => exact ⟨_, rfl, rfl⟩

/-- `Update` leaves the backend state as it was or applies `Modify` once. -/
theorem Update_frame {σ Params : Type} (ext : External Params) (b : ElastiCacheBroker σ)
    (instanceID : GoString) (ud : UpdateDetails Params) (acc : Bool) (s : σ) :
    OneCallAtMost (b.cacheClusterIdentifier instanceID) (b.Update ext instanceID ud acc s) s
      (fun id (x : CacheClusterDetails × Bool) => (b.cacheCluster.Modify id x.1 x.2 s).2) := by
  unfold OneCallAtMost
  cases acc
  · exact Or.inr (Or.inl ⟨_, by simp only [Update]; rfl⟩)
  · rcases hup : (if b.allowUserUpdateParameters then
        ext.decodeUpdateParameters ud.Parameters else .ok {}) with e | up
    · exact Or.inr (Or.inl ⟨_, by simp only [Update, hup]; rfl⟩)
    · rcases hfs : b.catalog.FindService ud.ServiceID with ⟨svc, found⟩
      cases found
      · exact Or.inr (Or.inl ⟨_, by simp only [Update, hup, hfs]; rfl⟩)
      · cases hu : svc.PlanUpdateable
        · exact Or.inr (Or.inl ⟨_, by simp only [Update, hup, hfs, hu]; rfl⟩)
        · rcases hfp : b.catalog.FindServicePlan ud.PlanID with ⟨plan, pfound⟩
          cases pfound
          · exact Or.inr (Or.inl ⟨_, by simp only [Update, hup, hfs, hu, hfp]; rfl⟩)
          · rcases hid : b.cacheClusterIdentifier instanceID with p | id
            · exact Or.inl ⟨p, rfl, by simp only [Update, hup, hfs, hu, hfp, hid]; rfl⟩
            · refine Or.inr (Or.inr ⟨id,
                (b.modifyCacheCluster ext.now instanceID plan up ud, up.ApplyImmediately), ?_⟩)
              beta_reduce
              rw [Update_of_reached ext b instanceID id ud s up svc plan hup hfs hu hfp hid]
              rcases hc : b.cacheCluster.Modify id
                  (b.modifyCacheCluster ext.now instanceID plan up ud)
                  up.ApplyImmediately s with ⟨oe, s2⟩
              cases oe with
              | some e =>
                by_cases he : e = .ErrCacheClusterDoesNotExist
                · exact ⟨(false, some .ErrInstanceDoesNotExist), rfl, by simp [he]⟩
                · exact ⟨(false, some e), rfl, by simp [he]⟩
              | none => exact ⟨_, rfl, rfl⟩

/-- `Deprovision` leaves the backend state as it was or applies `Delete` once. -/
theorem Deprovision_frame {σ : Type} (b : ElastiCacheBroker σ)
    (instanceID : GoString) (acc : Bool) (s : σ) :
    OneCallAtMost (b.cacheClusterIdentifier instanceID) (b.Deprovision instanceID acc s) s
      (fun id (_ : Unit) => (b.cacheCluster.Delete id s).2) := by
  unfold OneCallAtMost
  cases acc
  · exact Or.inr (Or.inl ⟨_, by simp only [Deprovision]; rfl⟩)
  · rcases hid : b.cacheClusterIdentifier instanceID with p | id
    · exact Or.inl ⟨p, rfl, by simp only [Deprovision, hid]; rfl⟩
    · refine Or.inr (Or.inr ⟨id, (), ?_⟩)
      beta_reduce
      rw [Deprovision_of_reached b instanceID id s hid]
      rcases hc : b.cacheCluster.Delete id s with ⟨oe, s2⟩
      cases oe with
      | some e =>
        by_cases he : e = .ErrCacheClusterDoesNotExist
        · exact ⟨(false, some .ErrInstanceDoesNotExist), rfl, by simp [he]⟩
        · exact ⟨(false, some e), rfl, by simp [he]⟩
      | none => exact ⟨_, rfl, rfl⟩

/-- `Bind` leaves the backend state as it was or applies `Describe` once. -/
theorem Bind_frame {σ Params : Type} (b : ElastiCacheBroker σ)
    (instanceID bindingID : GoString) (bd : BindDetails Params) (s : σ) :
    OneCallAtMost (b.cacheClusterIdentifier instanceID) (b.Bind instanceID bindingID bd s) s
      (fun id (_ : Unit) => (b.cacheCluster.Describe id s).2) := by
  unfold OneCallAtMost
  rcases hfs : b.catalog.FindService bd.ServiceID with ⟨svc, found⟩
  cases found
  · exact Or.inr (Or.inl ⟨_, by simp only [ElastiCacheBroker.Bind, hfs]; rfl⟩)
  · cases hb : svc.Bindable
    · exact Or.inr (Or.inl ⟨_, by simp only [ElastiCacheBroker.Bind, hfs, hb]; rfl⟩)
    · rcases hid : b.cacheClusterIdentifier instanceID with p | id
      · exact Or.inl ⟨p, rfl, by simp only [ElastiCacheBroker.Bind, hfs, hb, hid]; rfl⟩
      · refine Or.inr (Or.inr ⟨id, (), ?_⟩)
        beta_reduce
        rw [Bind_of_reached b instanceID bindingID id bd s svc hfs hb hid]
        rcases hc : b.cacheCluster.Describe id s with ⟨⟨d, oe⟩, s2⟩
        cases oe with
        | some e =>
          by_cases he : e = .ErrCacheClusterDoesNotExist
          · exact ⟨({}, some .ErrInstanceDoesNotExist), rfl, by simp [he]⟩
          · exact ⟨({}, some e), rfl, by simp [he]⟩
        | none => exact ⟨_, rfl, rfl⟩

/-- `LastOperation` panics on the identifier or applies `Describe` once. -/
theorem LastOperation_frame {σ : Type} (b : ElastiCacheBroker σ)
    (instanceID : GoString) (s : σ) :
    OneCallAtMost (b.cacheClusterIdentifier instanceID) (b.LastOperation instanceID s) s
      (fun id (_ : Unit) => (b.cacheCluster.Describe id s).2) := by
  unfold OneCallAtMost
  rcases hid : b.cacheClusterIdentifier instanceID with p | id
  · exact Or.inl ⟨p, rfl, by simp only [LastOperation, hid]⟩
  · refine Or.inr (Or.inr ⟨id, (), ?_⟩)
    beta_reduce
    rcases hc : b.cacheCluster.Describe id s with ⟨⟨d, oe⟩, s2⟩
    cases oe with
    | some e =>
      rw [LastOperation_of_describe_error b instanceID id s s2 d e hid hc]
      by_cases he : e = .ErrCacheClusterDoesNotExist
      · exact ⟨({ State := LastOperationFailed }, some .ErrInstanceDoesNotExist), rfl,
          by simp [he]⟩
      · exact ⟨({ State := LastOperationFailed }, some e), rfl, by simp [he]⟩
    | none =>
      rw [LastOperation_of_describe_ok b instanceID id s s2 d hid hc]
      exact ⟨_, rfl, rfl⟩

/-- Claim C20: run over a backend that logs its calls, from an empty log, every lifecycle
call ends in one of three ways: the identifier derivation panics, or the call returns
with the log still empty, or it returns with a log of exactly one call, addressed to
the derived identifier: `Create` for `Provision`, `Modify` for `Update`, `Delete` for
`Deprovision`, `Describe` for `Bind` and for `LastOperation`. Run over the fake backend,
it returns with the fake as it was or with only the recording fields of that one method
set. `Unbind` returns nil and leaves log and fake as they were. -/
theorem lifecycle_calls_at_most_one {σ Params : Type} (ext : External Params)
    (b : ElastiCacheBroker σ) (instanceID bindingID : GoString)
    (pd : ProvisionDetails Params) (ud : UpdateDetails Params) (bd : BindDetails Params)
    (acc : Bool) (s : σ) (f : FakeCacheCluster) :
    OneCallAtMost (b.cacheClusterIdentifier instanceID)
      (b.logged.Provision ext instanceID pd acc (s, [])) (s, [])
      (fun id (inst : CacheClusterDetails) =>
        ((b.cacheCluster.Create id inst s).2, [BackendCall.Create id inst])) ∧
    OneCallAtMost (b.cacheClusterIdentifier instanceID)
      (b.logged.Update ext instanceID ud acc (s, [])) (s, [])
      (fun id (x : CacheClusterDetails × Bool) =>
        ((b.cacheCluster.Modify id x.1 x.2 s).2, [BackendCall.Modify id x.1 x.2])) ∧
    OneCallAtMost (b.cacheClusterIdentifier instanceID)
      (b.logged.Deprovision instanceID acc (s, [])) (s, [])
      (fun id (_ : Unit) => ((b.cacheCluster.Delete id s).2, [BackendCall.Delete id])) ∧
    OneCallAtMost (b.cacheClusterIdentifier instanceID)
      (b.logged.Bind instanceID bindingID bd (s, [])) (s, [])
      (fun id (_ : Unit) => ((b.cacheCluster.Describe id s).2, [BackendCall.Describe id])) ∧
    OneCallAtMost (b.cacheClusterIdentifier instanceID)
      (b.logged.LastOperation instanceID (s, [])) (s, [])
      (fun id (_ : Unit) => ((b.cacheCluster.Describe id s).2, [BackendCall.Describe id])) ∧
    b.logged.Unbind instanceID bindingID (s, []) = .ok (none, (s, [])) ∧
    OneCallAtMost (b.cacheClusterIdentifier instanceID)
      ((fakeBroker b.cachePrefix b.catalog b.allowUserProvisionParameters
        b.allowUserUpdateParameters).Provision ext instanceID pd acc f) f
      (fun id (inst : CacheClusterDetails) =>
        { f with CreateCalled := true, CreateID := id, CreateCacheClusterDetails := inst }) ∧
    OneCallAtMost (b.cacheClusterIdentifier instanceID)
      ((fakeBroker b.cachePrefix b.catalog b.allowUserProvisionParameters
        b.allowUserUpdateParameters).Update ext instanceID ud acc f) f
      (fun id (x : CacheClusterDetails × Bool) =>
        { f with ModifyCalled := true, ModifyID := id, ModifyCacheClusterDetails := x.1,
                 ModifyApplyImmediately := x.2 }) ∧
    OneCallAtMost (b.cacheClusterIdentifier instanceID)
      ((fakeBroker b.cachePrefix b.catalog b.allowUserProvisionParameters
        b.allowUserUpdateParameters).Deprovision instanceID acc f) f
      (fun id (_ : Unit) => { f with DeleteCalled := true, DeleteID := id }) ∧
    OneCallAtMost (b.cacheClusterIdentifier instanceID)
      ((fakeBroker b.cachePrefix b.catalog b.allowUserProvisionParameters
        b.allowUserUpdateParameters).Bind instanceID bindingID bd f) f
      (fun id (_ : Unit) => { f with DescribeCalled := true, DescribeID := id }) ∧
    OneCallAtMost (b.cacheClusterIdentifier instanceID)
      ((fakeBroker b.cachePrefix b.catalog b.allowUserProvisionParameters
        b.allowUserUpdateParameters).LastOperation instanceID f) f
      (fun id (_ : Unit) => { f with DescribeCalled := true, DescribeID := id }) ∧
    (fakeBroker b.cachePrefix b.catalog b.allowUserProvisionParameters
      b.allowUserUpdateParameters).Unbind instanceID bindingID f = .ok (none, f) :=
  ⟨Provision_frame ext b.logged instanceID pd acc (s, []),
   Update_frame ext b.logged instanceID ud acc (s, []),
   Deprovision_frame b.logged instanceID acc (s, []),
   Bind_frame b.logged instanceID bindingID bd (s, []),
   LastOperation_frame b.logged instanceID (s, []),
   rfl,
   Provision_frame ext (fakeBroker b.cachePrefix b.catalog b.allowUserProvisionParameters
     b.allowUserUpdateParameters) instanceID pd acc f,
   Update_frame ext (fakeBroker b.cachePrefix b.catalog b.allowUserProvisionParameters
     b.allowUserUpdateParameters) instanceID ud acc f,
   Deprovision_frame (fakeBroker b.cachePrefix b.catalog b.allowUserProvisionParameters
     b.allowUserUpdateParameters) instanceID acc f,
   Bind_frame (fakeBroker b.cachePrefix b.catalog b.allowUserProvisionParameters
     b.allowUserUpdateParameters) instanceID bindingID bd f,
   LastOperation_frame (fakeBroker b.cachePrefix b.catalog b.allowUserProvisionParameters
     b.allowUserUpdateParameters) instanceID f,
   rfl⟩

/-- The calls logged on the broker with service `"s1"` and plan `"p1"`: one `Create`, one
`Modify`, one `Delete`, one `Describe` and one `Describe`, each with the identifier
`"cf-0123456789abcdef0"`, and none for `Unbind`. -/
theorem lifecycle_calls_example :
    (s1Broker.logged.Provision decodingOk uuid1 provisionP1 true ({}, [])).map
        (fun r => r.2.2)
      = .ok [.Create (str "cf-0123456789abcdef0")
          (s1Broker.createCacheCluster decodingOk.now uuid1 planP1 {} provisionP1)] ∧
    (s1Broker.logged.Update decodingOk uuid1 updateP1 true ({}, [])).map (fun r => r.2.2)
      = .ok [.Modify (str "cf-0123456789abcdef0")
          (s1Broker.modifyCacheCluster decodingOk.now uuid1 planP1 {} updateP1) false] ∧
    (s1Broker.logged.Deprovision uuid1 true ({}, [])).map (fun r => r.2.2)
      = .ok [.Delete (str "cf-0123456789abcdef0")] ∧
    (s1Broker.logged.Bind uuid1 (str "binding-1") bindP1 (fakeAvailable, [])).map
        (fun r => r.2.2)
      = .ok [.Describe (str "cf-0123456789abcdef0")] ∧
    (s1Broker.logged.LastOperation uuid1 (fakeAvailable, [])).map (fun r => r.2.2)
      = .ok [.Describe (str "cf-0123456789abcdef0")] ∧
    (s1Broker.logged.Unbind uuid1 (str "binding-1") ({}, [])).map (fun r => r.2.2)
      = .ok [] := by
  decide

/-! ## Theorems: the spec passed to the backend -/

/-- The call logged by a `Provision` that passes its guards: `Create` with the derived
identifier and the spec built by `createCacheCluster`. -/
theorem Provision_logged_of_reached {σ Params : Type} (ext : External Params)
    (b : ElastiCacheBroker σ) (instanceID id : GoString) (pd : ProvisionDetails Params) (s : σ)
    (pp : ProvisionParameters) (plan : ServicePlan)
    (hpp : (if b.allowUserProvisionParameters then
      ext.decodeProvisionParameters pd.Parameters else .ok {}) = .ok pp)
    (hfp : b.catalog.FindServicePlan pd.PlanID = (plan, true))
    (hid : b.cacheClusterIdentifier instanceID = .ok id) :
    (b.logged.Provision ext instanceID pd true (s, [])).map (fun r => r.2.2) =
      .ok [.Create id (b.createCacheCluster ext.now instanceID plan pp pd)] := by
  rw [Provision_of_reached ext b.logged instanceID id pd (s, []) pp plan hpp hfp hid]
  have e : b.logged.createCacheCluster ext.now instanceID plan pp pd
      = b.createCacheCluster ext.now instanceID plan pp pd := rfl
  rw [e]
  generalize b.createCacheCluster ext.now instanceID plan pp pd = spec
  have hl : b.logged.cacheCluster.Create id spec (s, []) =
      ((b.cacheCluster.Create id spec s).1,
        ((b.cacheCluster.Create id spec s).2, [BackendCall.Create id spec])) := rfl
  rw [hl]
  rcases b.cacheCluster.Create id spec s with ⟨oe, s2⟩
  cases oe <;> rfl

/-- The call logged by an `Update` that passes its guards: `Modify` with the derived
identifier, the spec built by `modifyCacheCluster` and the flag of the parameters. -/
theorem Update_logged_of_reached {σ Params : Type} (ext : External Params)
    (b : ElastiCacheBroker σ) (instanceID id : GoString) (ud : UpdateDetails Params) (s : σ)
    (up : UpdateParameters) (svc : Service) (plan : ServicePlan)
    (hup : (if b.allowUserUpdateParameters then
      ext.decodeUpdateParameters ud.Parameters else .ok {}) = .ok up)
    (hfs : b.catalog.FindService ud.ServiceID = (svc, true))
    (hu : svc.PlanUpdateable = true)
    (hfp : b.catalog.FindServicePlan ud.PlanID = (plan, true))
    (hid : b.cacheClusterIdentifier instanceID = .ok id) :
    (b.logged.Update ext instanceID ud true (s, [])).map (fun r => r.2.2) =
      .ok [.Modify id (b.modifyCacheCluster ext.now instanceID plan up ud)
        up.ApplyImmediately] := by
  rw [Update_of_reached ext b.logged instanceID id ud (s, []) up svc plan hup hfs hu hfp hid]
  have e : b.logged.modifyCacheCluster ext.now instanceID plan up ud
      = b.modifyCacheCluster ext.now instanceID plan up ud := rfl
  rw [e]
  generalize b.modifyCacheCluster ext.now instanceID plan up ud = spec
  have hl : b.logged.cacheCluster.Modify id spec up.ApplyImmediately (s, []) =
      ((b.cacheCluster.Modify id spec up.ApplyImmediately s).1,
        ((b.cacheCluster.Modify id spec up.ApplyImmediately s).2,
          [BackendCall.Modify id spec up.ApplyImmediately])) := rfl
  rw [hl]
  rcases b.cacheCluster.Modify id spec up.ApplyImmediately s with ⟨oe, s2⟩
  cases oe with
  | none => rfl
  | some err =>
    by_cases he : err = .ErrCacheClusterDoesNotExist
    · simp [he, Except.map]
    · simp [he, Except.map]

/-- The tags `"<action> by"` and `"<action> at"` of the map built by `cacheTags`. -/
theorem cacheTags_lookup_by_at {σ : Type} (b : ElastiCacheBroker σ)
    (now action serviceID planID organizationID spaceID : GoString) :
    (b.cacheTags now action serviceID planID organizationID spaceID).lookup (action ++ str " by")
      = some (str "AWS ElastiCache Service Broker") ∧
    (b.cacheTags now action serviceID planID organizationID spaceID).lookup (action ++ str " at")
      = some now := by
  have s1 := ne_append_of_not_suffix (str "Service ID") (str " by") (by decide) action
  have s2 := ne_append_of_not_suffix (str "Service ID") (str " at") (by decide) action
  have p1 := ne_append_of_not_suffix (str "Plan ID") (str " by") (by decide) action
  have p2 := ne_append_of_not_suffix (str "Plan ID") (str " at") (by decide) action
  have g1 := ne_append_of_not_suffix (str "Organization ID") (str " by") (by decide) action
  have g2 := ne_append_of_not_suffix (str "Organization ID") (str " at") (by decide) action
  have c1 := ne_append_of_not_suffix (str "Space ID") (str " by") (by decide) action
  have c2 := ne_append_of_not_suffix (str "Space ID") (str " at") (by decide) action
  have ba : action ++ str " by" ≠ action ++ str " at" :=
    fun e => absurd (List.append_cancel_left e) (by decide)
  constructor
  · rw [cacheTags_lookup]
    simp [Ne.symm c1, Ne.symm g1, Ne.symm p1, Ne.symm s1, ba]
  · rw [cacheTags_lookup]
    simp [Ne.symm c2, Ne.symm g2, Ne.symm p2, Ne.symm s2]

/-- The tags `"Organization ID"` and `"Space ID"` of the map built by `cacheTags`. -/
theorem cacheTags_lookup_organization_space {σ : Type} (b : ElastiCacheBroker σ)
    (now action serviceID planID organizationID spaceID : GoString) :
    (b.cacheTags now action serviceID planID organizationID spaceID).lookup
        (str "Organization ID") = (if organizationID = [] then none else some organizationID) ∧
    (b.cacheTags now action serviceID planID organizationID spaceID).lookup (str "Space ID")
      = (if spaceID = [] then none else some spaceID) := by
  have g1 := ne_append_of_not_suffix (str "Organization ID") (str " by") (by decide) action
  have g2 := ne_append_of_not_suffix (str "Organization ID") (str " at") (by decide) action
  have c1 := ne_append_of_not_suffix (str "Space ID") (str " by") (by decide) action
  have c2 := ne_append_of_not_suffix (str "Space ID") (str " at") (by decide) action
  have d : ∀ x y : String, decide (str x = str y) = false → str x ≠ str y :=
    fun x y h e => by simp [e] at h
  constructor
  · rw [cacheTags_lookup]
    by_cases h : organizationID = [] <;>
    simp [h, g1, g2, d "Organization ID" "Space ID" (by decide),
      d "Organization ID" "Plan ID" (by decide), d "Organization ID" "Service ID" (by decide),
      d "Organization ID" "Owner" (by decide)]
  · rw [cacheTags_lookup]
    by_cases h : spaceID = [] <;>
    simp [h, c1, c2, d "Space ID" "Organization ID" (by decide),
      d "Space ID" "Plan ID" (by decide), d "Space ID" "Service ID" (by decide),
      d "Space ID" "Owner" (by decide)]

/-- The maps built by `cacheTags` at two times agree on every key but `"<action> at"`. -/
theorem cacheTags_lookup_of_ne_at {σ : Type} (b : ElastiCacheBroker σ)
    (now1 now2 action serviceID planID organizationID spaceID k : GoString)
    (hk : k ≠ action ++ str " at") :
    (b.cacheTags now1 action serviceID planID organizationID spaceID).lookup k =
      (b.cacheTags now2 action serviceID planID organizationID spaceID).lookup k := by
  rw [cacheTags_lookup, cacheTags_lookup]
  simp [hk]

/-- Claim C21: once the identifier is derived, the spec that a `Provision` past its guards
passes to `Create` has the tags `"Created by"` and `"Created at"`, and has
`"Organization ID"` / `"Space ID"` exactly when `details.OrganizationGUID` /
`details.SpaceGUID` is non-empty, with that value; the spec that an `Update` past its
guards passes to `Modify` has the tags `"Updated by"` and `"Updated at"` and has neither
`"Organization ID"` nor `"Space ID"`. The spec is read from the log of the backend. -/
theorem organization_and_space_tags {σ Params : Type} (ext : External Params)
    (b : ElastiCacheBroker σ) (instanceID id : GoString)
    (pd : ProvisionDetails Params) (ud : UpdateDetails Params) (s : σ)
    (hid : b.cacheClusterIdentifier instanceID = .ok id) :
    (∀ pp plan,
      (if b.allowUserProvisionParameters then
        ext.decodeProvisionParameters pd.Parameters else .ok {}) = .ok pp →
      b.catalog.FindServicePlan pd.PlanID = (plan, true) →
      ∃ spec,
        (b.logged.Provision ext instanceID pd true (s, [])).map (fun r => r.2.2)
          = .ok [.Create id spec] ∧
        spec.Tags.lookup (str "Created by") = some (str "AWS ElastiCache Service Broker") ∧
        spec.Tags.lookup (str "Created at") = some ext.now ∧
        spec.Tags.lookup (str "Organization ID")
          = (if pd.OrganizationGUID = [] then none else some pd.OrganizationGUID) ∧
        spec.Tags.lookup (str "Space ID")
          = (if pd.SpaceGUID = [] then none else some pd.SpaceGUID)) ∧
    (∀ up svc plan,
      (if b.allowUserUpdateParameters then
        ext.decodeUpdateParameters ud.Parameters else .ok {}) = .ok up →
      b.catalog.FindService ud.ServiceID = (svc, true) → svc.PlanUpdateable = true →
      b.catalog.FindServicePlan ud.PlanID = (plan, true) →
      ∃ spec,
        (b.logged.Update ext instanceID ud true (s, [])).map (fun r => r.2.2)
          = .ok [.Modify id spec up.ApplyImmediately] ∧
        spec.Tags.lookup (str "Updated by") = some (str "AWS ElastiCache Service Broker") ∧
        spec.Tags.lookup (str "Updated at") = some ext.now ∧
        spec.Tags.lookup (str "Organization ID") = none ∧
        spec.Tags.lookup (str "Space ID") = none) := by
  have hc1 : str "Created by" = str "Created" ++ str " by" := by decide
  have hc2 : str "Created at" = str "Created" ++ str " at" := by decide
  have hu1 : str "Updated by" = str "Updated" ++ str " by" := by decide
  have hu2 : str "Updated at" = str "Updated" ++ str " at" := by decide
  constructor
  · intro pp plan hpp hfp
    refine ⟨_, Provision_logged_of_reached ext b instanceID id pd s pp plan hpp hfp hid,
      ?_, ?_, ?_, ?_⟩
    · rw [hc1]
      exact (cacheTags_lookup_by_at b ext.now (str "Created") pd.ServiceID pd.PlanID
        pd.OrganizationGUID pd.SpaceGUID).1
    · rw [hc2]
      exact (cacheTags_lookup_by_at b ext.now (str "Created") pd.ServiceID pd.PlanID
        pd.OrganizationGUID pd.SpaceGUID).2
    · exact (cacheTags_lookup_organization_space b ext.now (str "Created") pd.ServiceID
        pd.PlanID pd.OrganizationGUID pd.SpaceGUID).1
    · exact (cacheTags_lookup_organization_space b ext.now (str "Created") pd.ServiceID
        pd.PlanID pd.OrganizationGUID pd.SpaceGUID).2
  · intro up svc plan hup hfs hu hfp
    refine ⟨_, Update_logged_of_reached ext b instanceID id ud s up svc plan hup hfs hu hfp hid,
      ?_, ?_, ?_, ?_⟩
    · rw [hu1]
      exact (cacheTags_lookup_by_at b ext.now (str "Updated") ud.ServiceID ud.PlanID [] []).1
    · rw [hu2]
      exact (cacheTags_lookup_by_at b ext.now (str "Updated") ud.ServiceID ud.PlanID [] []).2
    · exact (cacheTags_lookup_organization_space b ext.now (str "Updated") ud.ServiceID
        ud.PlanID [] []).1
    · exact (cacheTags_lookup_organization_space b ext.now (str "Updated") ud.ServiceID
        ud.PlanID [] []).2

/-- Witness of `organization_and_space_tags`: a provision in organization `"org-1"`
without a space, and an update, on the broker with service `"s1"` and plan `"p1"`. -/
theorem organization_and_space_tags_witness :
    s1Broker.cacheClusterIdentifier uuid1 = .ok (str "cf-0123456789abcdef0") ∧
    (∃ spec,
      (s1Broker.logged.Provision decodingOk uuid1 provisionNoSpace true ({}, [])).map
          (fun r => r.2.2) = .ok [.Create (str "cf-0123456789abcdef0") spec] ∧
      spec.Tags.lookup (str "Created by") = some (str "AWS ElastiCache Service Broker") ∧
      spec.Tags.lookup (str "Created at") = some decodingOk.now ∧
      spec.Tags.lookup (str "Organization ID")
        = (if provisionNoSpace.OrganizationGUID = [] then none
           else some provisionNoSpace.OrganizationGUID) ∧
      spec.Tags.lookup (str "Space ID")
        = (if provisionNoSpace.SpaceGUID = [] then none
           else some provisionNoSpace.SpaceGUID)) ∧
    (∃ spec,
      (s1Broker.logged.Update decodingOk uuid1 updateP1 true ({}, [])).map (fun r => r.2.2)
        = .ok [.Modify (str "cf-0123456789abcdef0") spec
            ({} : UpdateParameters).ApplyImmediately] ∧
      spec.Tags.lookup (str "Updated by") = some (str "AWS ElastiCache Service Broker") ∧
      spec.Tags.lookup (str "Updated at") = some decodingOk.now ∧
      spec.Tags.lookup (str "Organization ID") = none ∧
      spec.Tags.lookup (str "Space ID") = none) ∧
    provisionNoSpace.OrganizationGUID = str "org-1" ∧ provisionNoSpace.SpaceGUID = [] :=
  have h := organization_and_space_tags decodingOk s1Broker uuid1 (str "cf-0123456789abcdef0")
    provisionNoSpace updateP1 {} (by decide)
  ⟨by decide, h.1 {} planP1 rfl (by decide), h.2 {} openService planP1 rfl (by decide) rfl
    (by decide), rfl, rfl⟩

/-- Claim C22: the request built by `buildModifyCacheClusterInput` is the same for any two
specs; it holds the identifier and the `applyImmediately` flag and none of the fields
through which a plan could be sent. So the specs built by `modifyCacheCluster` for two
plans give the same request, and the request received by `ModifyCacheCluster` from
`Modify` is that one, whatever the spec. -/
theorem buildModifyCacheClusterInput_ignores_spec {ω σ Params : Type}
    (r : ElastiCacheCluster ω) (b : ElastiCacheBroker σ) (ID instanceID now : GoString)
    (d1 d2 : CacheClusterDetails) (applyImmediately : Bool)
    (plan1 plan2 : ServicePlan) (up : UpdateParameters) (ud : UpdateDetails Params) :
    r.buildModifyCacheClusterInput ID d1 applyImmediately
      = r.buildModifyCacheClusterInput ID d2 applyImmediately ∧
    r.buildModifyCacheClusterInput ID d1 applyImmediately =
      { CacheClusterId := some ID, ApplyImmediately := some applyImmediately,
        NumCacheNodes := none, CacheNodeType := none, SecurityGroupIds := [],
        EngineVersion := none } ∧
    r.buildModifyCacheClusterInput ID (b.modifyCacheCluster now instanceID plan1 up ud)
        up.ApplyImmediately
      = r.buildModifyCacheClusterInput ID (b.modifyCacheCluster now instanceID plan2 up ud)
        up.ApplyImmediately ∧
    awsRecording.Modify ID d1 applyImmediately [] =
      .ok (none, [{ CacheClusterId := some ID, ApplyImmediately := some applyImmediately }]) := by
  refine ⟨rfl, rfl, rfl, ?_⟩
  by_cases ht : d1.Tags.length > 0
  · simp [ElastiCacheCluster.Modify, awsRecording, ht, ElastiCacheCluster.cacheClusterARN,
      UserAccount, ElastiCacheCluster.buildModifyCacheClusterInput]
  · simp [ElastiCacheCluster.Modify, awsRecording, ht,
      ElastiCacheCluster.buildModifyCacheClusterInput]

/-- Two updates of one cluster, to the plan `"p1"` and to the plan `"p2"`, build different
specs and send the same request. -/
theorem buildModifyCacheClusterInput_example :
    s1Broker.modifyCacheCluster decodingOk.now uuid1 planP1 {} updateP1
      ≠ s1Broker.modifyCacheCluster decodingOk.now uuid1 planP2 {} updateP1 ∧
    awsRecording.Modify (str "cf-0123456789abcdef0")
        (s1Broker.modifyCacheCluster decodingOk.now uuid1 planP1 {} updateP1) false [] =
      awsRecording.Modify (str "cf-0123456789abcdef0")
        (s1Broker.modifyCacheCluster decodingOk.now uuid1 planP2 {} updateP1) false [] := by
  decide

/-- Claim C23: once the identifier is derived, take two `Provision` calls whose details
agree on everything but `Parameters`, both past their guards, with user parameters
permitted or not. The specs they pass to `Create` are the same up to the tag
`"Created at"`; when the clock reads the same they are equal, and so are the results of
the two calls. The same holds for two `Update` calls, `Modify` and `"Updated at"`, where
the results are equal when moreover the decoded `ApplyImmediately` flags are. -/
theorem parameters_never_reach_spec {σ Params : Type} (ext1 ext2 : External Params)
    (b : ElastiCacheBroker σ) (instanceID id : GoString)
    (pd1 pd2 : ProvisionDetails Params) (ud1 ud2 : UpdateDetails Params) (s : σ)
    (hid : b.cacheClusterIdentifier instanceID = .ok id) :
    (∀ pp1 pp2 plan,
      pd2.ServiceID = pd1.ServiceID → pd2.PlanID = pd1.PlanID →
      pd2.OrganizationGUID = pd1.OrganizationGUID → pd2.SpaceGUID = pd1.SpaceGUID →
      (if b.allowUserProvisionParameters then
        ext1.decodeProvisionParameters pd1.Parameters else .ok {}) = .ok pp1 →
      (if b.allowUserProvisionParameters then
        ext2.decodeProvisionParameters pd2.Parameters else .ok {}) = .ok pp2 →
      b.catalog.FindServicePlan pd1.PlanID = (plan, true) →
      ∃ spec1 spec2,
        (b.logged.Provision ext1 instanceID pd1 true (s, [])).map (fun r => r.2.2)
          = .ok [.Create id spec1] ∧
        (b.logged.Provision ext2 instanceID pd2 true (s, [])).map (fun r => r.2.2)
          = .ok [.Create id spec2] ∧
        SameUpToTag (str "Created at") spec1 spec2 ∧
        (ext1.now = ext2.now →
          spec1 = spec2 ∧
          b.Provision ext1 instanceID pd1 true s = b.Provision ext2 instanceID pd2 true s)) ∧
    (∀ up1 up2 svc plan,
      ud2.ServiceID = ud1.ServiceID → ud2.PlanID = ud1.PlanID →
      (if b.allowUserUpdateParameters then
        ext1.decodeUpdateParameters ud1.Parameters else .ok {}) = .ok up1 →
      (if b.allowUserUpdateParameters then
        ext2.decodeUpdateParameters ud2.Parameters else .ok {}) = .ok up2 →
      b.catalog.FindService ud1.ServiceID = (svc, true) → svc.PlanUpdateable = true →
      b.catalog.FindServicePlan ud1.PlanID = (plan, true) →
      ∃ spec1 spec2,
        (b.logged.Update ext1 instanceID ud1 true (s, [])).map (fun r => r.2.2)
          = .ok [.Modify id spec1 up1.ApplyImmediately] ∧
        (b.logged.Update ext2 instanceID ud2 true (s, [])).map (fun r => r.2.2)
          = .ok [.Modify id spec2 up2.ApplyImmediately] ∧
        SameUpToTag (str "Updated at") spec1 spec2 ∧
        (ext1.now = ext2.now →
          spec1 = spec2 ∧
          (up1.ApplyImmediately = up2.ApplyImmediately →
            b.Update ext1 instanceID ud1 true s = b.Update ext2 instanceID ud2 true s))) := by
  have hc : str "Created at" = str "Created" ++ str " at" := by decide
  have hu : str "Updated at" = str "Updated" ++ str " at" := by decide
  constructor
  · intro pp1 pp2 plan h1 h2 h3 h4 hpp1 hpp2 hfp
    have hfp2 : b.catalog.FindServicePlan pd2.PlanID = (plan, true) := by rw [h2]; exact hfp
    have hspec : ∀ now, b.createCacheCluster now instanceID plan pp2 pd2
        = b.createCacheCluster now instanceID plan pp1 pd1 := by
      intro now
      simp only [createCacheCluster, h1, h2, h3, h4]
    refine ⟨_, _, Provision_logged_of_reached ext1 b instanceID id pd1 s pp1 plan hpp1 hfp hid,
      Provision_logged_of_reached ext2 b instanceID id pd2 s pp2 plan hpp2 hfp2 hid, ?_, ?_⟩
    · rw [hspec]
      refine ⟨rfl, ?_⟩
      intro k hk
      rw [hc] at hk
      exact cacheTags_lookup_of_ne_at b ext1.now ext2.now (str "Created") pd1.ServiceID
        pd1.PlanID pd1.OrganizationGUID pd1.SpaceGUID k hk
    · intro hnow
      have e : b.createCacheCluster ext1.now instanceID plan pp1 pd1
          = b.createCacheCluster ext2.now instanceID plan pp2 pd2 := by
        rw [hspec, hnow]
      refine ⟨e, ?_⟩
      rw [Provision_of_reached ext1 b instanceID id pd1 s pp1 plan hpp1 hfp hid,
        Provision_of_reached ext2 b instanceID id pd2 s pp2 plan hpp2 hfp2 hid, e]
  · intro up1 up2 svc plan h1 h2 hup1 hup2 hfs hupd hfp
    have hfs2 : b.catalog.FindService ud2.ServiceID = (svc, true) := by rw [h1]; exact hfs
    have hfp2 : b.catalog.FindServicePlan ud2.PlanID = (plan, true) := by rw [h2]; exact hfp
    have hspec : ∀ now, b.modifyCacheCluster now instanceID plan up2 ud2
        = b.modifyCacheCluster now instanceID plan up1 ud1 := by
      intro now
      simp only [modifyCacheCluster, h1, h2]
    refine ⟨_, _,
      Update_logged_of_reached ext1 b instanceID id ud1 s up1 svc plan hup1 hfs hupd hfp hid,
      Update_logged_of_reached ext2 b instanceID id ud2 s up2 svc plan hup2 hfs2 hupd hfp2 hid,
      ?_, ?_⟩
    · rw [hspec]
      refine ⟨rfl, ?_⟩
      intro k hk
      rw [hu] at hk
      exact cacheTags_lookup_of_ne_at b ext1.now ext2.now (str "Updated") ud1.ServiceID
        ud1.PlanID [] [] k hk
    · intro hnow
      have e : b.modifyCacheCluster ext1.now instanceID plan up1 ud1
          = b.modifyCacheCluster ext2.now instanceID plan up2 ud2 := by
        rw [hspec, hnow]
      refine ⟨e, ?_⟩
      intro hflag
      rw [Update_of_reached ext1 b instanceID id ud1 s up1 svc plan hup1 hfs hupd hfp hid,
        Update_of_reached ext2 b instanceID id ud2 s up2 svc plan hup2 hfs2 hupd hfp2 hid,
        e, hflag]

/-- Witness of `parameters_never_reach_spec`: user parameters are permitted, and the two
requests carry `{"apply_immediately": true}` and `{"apply_immediately": false}`. -/
theorem parameters_never_reach_spec_witness :
    permissiveBroker.cacheClusterIdentifier uuid1 = .ok (str "cf-0123456789abcdef0") ∧
    (provisionWith true).Parameters ≠ (provisionWith false).Parameters ∧
    (∃ spec1 spec2,
      (permissiveBroker.logged.Provision decodingFlag uuid1 (provisionWith true) true
          ({}, [])).map (fun r => r.2.2) = .ok [.Create (str "cf-0123456789abcdef0") spec1] ∧
      (permissiveBroker.logged.Provision decodingFlag uuid1 (provisionWith false) true
          ({}, [])).map (fun r => r.2.2) = .ok [.Create (str "cf-0123456789abcdef0") spec2] ∧
      SameUpToTag (str "Created at") spec1 spec2 ∧
      (decodingFlag.now = decodingFlag.now →
        spec1 = spec2 ∧
        permissiveBroker.Provision decodingFlag uuid1 (provisionWith true) true {} =
          permissiveBroker.Provision decodingFlag uuid1 (provisionWith false) true {})) ∧
    (∃ spec1 spec2,
      (permissiveBroker.logged.Update decodingFlag uuid1 (updateWith true) true
          ({}, [])).map (fun r => r.2.2)
        = .ok [.Modify (str "cf-0123456789abcdef0") spec1
            ({ ApplyImmediately := true } : UpdateParameters).ApplyImmediately] ∧
      (permissiveBroker.logged.Update decodingFlag uuid1 (updateWith false) true
          ({}, [])).map (fun r => r.2.2)
        = .ok [.Modify (str "cf-0123456789abcdef0") spec2
            ({ ApplyImmediately := false } : UpdateParameters).ApplyImmediately] ∧
      SameUpToTag (str "Updated at") spec1 spec2 ∧
      (decodingFlag.now = decodingFlag.now →
        spec1 = spec2 ∧
        (({ ApplyImmediately := true } : UpdateParameters).ApplyImmediately
            = ({ ApplyImmediately := false } : UpdateParameters).ApplyImmediately →
          permissiveBroker.Update decodingFlag uuid1 (updateWith true) true {} =
            permissiveBroker.Update decodingFlag uuid1 (updateWith false) true {}))) ∧
    (∃ spec1 spec2,
      (permissiveBroker.logged.Provision decodingFlag uuid1 (provisionWith true) true
          ({}, [])).map (fun r => r.2.2) = .ok [.Create (str "cf-0123456789abcdef0") spec1] ∧
      (permissiveBroker.logged.Provision decodingFlagLater uuid1 (provisionWith false) true
          ({}, [])).map (fun r => r.2.2) = .ok [.Create (str "cf-0123456789abcdef0") spec2] ∧
      SameUpToTag (str "Created at") spec1 spec2 ∧
      (decodingFlag.now = decodingFlagLater.now →
        spec1 = spec2 ∧
        permissiveBroker.Provision decodingFlag uuid1 (provisionWith true) true {} =
          permissiveBroker.Provision decodingFlagLater uuid1 (provisionWith false) true {})) :=
  have h := parameters_never_reach_spec decodingFlag decodingFlag permissiveBroker uuid1
    (str "cf-0123456789abcdef0") (provisionWith true) (provisionWith false) (updateWith true)
    (updateWith false) {} (by decide)
  have hl := parameters_never_reach_spec decodingFlag decodingFlagLater permissiveBroker uuid1
    (str "cf-0123456789abcdef0") (provisionWith true) (provisionWith false) (updateWith true)
    (updateWith false) {} (by decide)
  ⟨by decide, by decide,
   h.1 {} {} planP1 rfl rfl rfl rfl rfl rfl (by decide),
   h.2 { ApplyImmediately := true } { ApplyImmediately := false } openService planP1 rfl rfl
     rfl rfl (by decide) rfl (by decide),
   hl.1 {} {} planP1 rfl rfl rfl rfl rfl rfl (by decide)⟩

/-! ## Theorems: the AWS-backed `Describe` -/

/-- What `buildCacheCluster` does, by the first cache node of the record: without a node
the endpoint and the port are left empty and zero; with a first node that has an endpoint
they are taken from it; with a first node that has none, the dereference panics. -/
theorem buildCacheCluster_cases {ω : Type} (r : ElastiCacheCluster ω)
    (c : elasticache.CacheCluster) :
    (c.CacheNodes = [] →
      r.buildCacheCluster c =
        .ok { CacheClusterId := aws.StringValue c.CacheClusterId
              Status := aws.StringValue c.CacheClusterStatus
              Engine := aws.StringValue c.Engine
              EngineVersion := aws.StringValue c.EngineVersion
              NumCacheNodes := aws.Int64Value c.NumCacheNodes
              Endpoint := [], Port := 0 }) ∧
    (∀ node rest endpoint, c.CacheNodes = node :: rest → node.Endpoint = some endpoint →
      r.buildCacheCluster c =
        .ok { CacheClusterId := aws.StringValue c.CacheClusterId
              Status := aws.StringValue c.CacheClusterStatus
              Engine := aws.StringValue c.Engine
              EngineVersion := aws.StringValue c.EngineVersion
              NumCacheNodes := aws.Int64Value c.NumCacheNodes
              Endpoint := aws.StringValue endpoint.Address
              Port := aws.Int64Value endpoint.Port }) ∧
    (∀ node rest, c.CacheNodes = node :: rest → node.Endpoint = none →
      r.buildCacheCluster c = .error .nilPointerDereference) := by
  refine ⟨?_, ?_, ?_⟩
  · intro h
    simp [ElastiCacheCluster.buildCacheCluster, h]
  · intro node rest endpoint h he
    simp [ElastiCacheCluster.buildCacheCluster, h, he]
  · intro node rest h he
    simp [ElastiCacheCluster.buildCacheCluster, h, he]

/-- Whenever `buildCacheCluster` returns, the identifier of the details is that of the
record. -/
theorem buildCacheCluster_id {ω : Type} (r : ElastiCacheCluster ω)
    (c : elasticache.CacheCluster) (d : CacheClusterDetails)
    (h : r.buildCacheCluster c = .ok d) :
    d.CacheClusterId = aws.StringValue c.CacheClusterId := by
  unfold ElastiCacheCluster.buildCacheCluster at h
  rcases hn : c.CacheNodes with _ | ⟨node, rest⟩
  · simp [hn] at h
    rw [← h]
  · cases he : node.Endpoint with
    | none => simp [hn, he] at h
    | some endpoint =>
      simp [hn, he] at h
      rw [← h]

/-- Claim C24, at the failing input: for a record whose first cache node has no endpoint,
as listed while the cluster is being created, `buildCacheCluster` dereferences the nil
`Endpoint` and panics; it returns no details. For the record of the available cluster it
returns the address and the port of the first node. -/
theorem buildCacheCluster_nil_endpoint_panics :
    creatingCluster.CacheNodes = [{ Endpoint := none }] ∧
    (awsListing []).buildCacheCluster creatingCluster = .error .nilPointerDereference ∧
    ((awsListing []).buildCacheCluster availableCluster).map (fun d => (d.Endpoint, d.Port))
      = .ok (str "cache.example.com", 6379) := by
  decide

/-- The loop of `Describe` finds the first listed record whose identifier is `ID` and
builds it; without such a record it answers `ErrCacheClusterDoesNotExist`. -/
theorem describeLoop_eq_find {ω : Type} (r : ElastiCacheCluster ω) (ID : GoString)
    (l : List elasticache.CacheCluster) :
    r.describeLoop ID l =
      match l.find? (fun c => decide (aws.StringValue c.CacheClusterId = ID)) with
      | none => .ok ({}, some .ErrCacheClusterDoesNotExist)
      | some c =>
        match r.buildCacheCluster c with
        | .error p => .error p
        | .ok d => .ok (d, none) := by
  induction l with
  | nil => rfl
  | cons c rest ih =>
    by_cases h : aws.StringValue c.CacheClusterId = ID
    · simp [ElastiCacheCluster.describeLoop, List.find?, h]
    · simp [ElastiCacheCluster.describeLoop, List.find?, h, ih]

/-- What `Describe` returns when the list call succeeds. Without a listed record of
identifier `ID` it returns empty details and `ErrCacheClusterDoesNotExist`, and only then;
otherwise it builds the first such record: when `buildCacheCluster` returns details it
returns them with a nil error, and their `CacheClusterId` is `ID`; when
`buildCacheCluster` panics, so does `Describe`. -/
theorem Describe_of_listed {ω : Type} (r : ElastiCacheCluster ω) (ID : GoString) (w w1 : ω)
    (out : elasticache.DescribeCacheClustersOutput)
    (hlist : r.cachesvc.DescribeCacheClusters
      { CacheClusterId := some ID, ShowCacheNodeInfo := some true } w = (.ok out, w1)) :
    ((∀ c ∈ out.CacheClusters, aws.StringValue c.CacheClusterId ≠ ID) →
      r.Describe ID w = .ok (({}, some .ErrCacheClusterDoesNotExist), w1)) ∧
    (∀ c d,
      out.CacheClusters.find? (fun c => decide (aws.StringValue c.CacheClusterId = ID)) = some c →
      r.buildCacheCluster c = .ok d →
      r.Describe ID w = .ok ((d, none), w1) ∧ d.CacheClusterId = ID) ∧
    (∀ c p,
      out.CacheClusters.find? (fun c => decide (aws.StringValue c.CacheClusterId = ID)) = some c →
      r.buildCacheCluster c = .error p →
      r.Describe ID w = .error p) ∧
    ((∃ d w', r.Describe ID w = .ok ((d, some .ErrCacheClusterDoesNotExist), w')) →
      ∀ c ∈ out.CacheClusters, aws.StringValue c.CacheClusterId ≠ ID) := by
  have hD : r.Describe ID w =
      match r.describeLoop ID out.CacheClusters with
      | .error p => .error p
      | .ok res => .ok (res, w1) := by
    simp only [ElastiCacheCluster.Describe, hlist]
  refine ⟨?_, ?_, ?_, ?_⟩
  · intro hno
    have hf : out.CacheClusters.find?
        (fun c => decide (aws.StringValue c.CacheClusterId = ID)) = none := by
      rw [List.find?_eq_none]
      intro c hc
      simpa using hno c hc
    rw [hD, describeLoop_eq_find, hf]
  · intro c d hf hb
    constructor
    · rw [hD, describeLoop_eq_find, hf]
      simp only [hb]
    · have hm := List.find?_some hf
      rw [buildCacheCluster_id r c d hb]
      simpa using hm
  · intro c p hf hb
    rw [hD, describeLoop_eq_find, hf]
    simp only [hb]
  · rintro ⟨d, w', h⟩
    rw [hD, describeLoop_eq_find] at h
    cases hf : out.CacheClusters.find?
        (fun c => decide (aws.StringValue c.CacheClusterId = ID)) with
    | none =>
      intro c hc
      have := (List.find?_eq_none.mp hf) c hc
      simpa using this
    | some c =>
      rw [hf] at h
      cases hb : r.buildCacheCluster c with
      | error p => simp [hb] at h
      | ok d2 => simp [hb] at h

/-- Claim C25, at the failing input: the list call succeeds and lists another cluster,
then the cluster `"cf-0123456789abcdef0"` in the state it has while being created, its
node without an endpoint. `Describe` of that identifier finds the record and panics in
`buildCacheCluster`; it returns neither details nor an error. With the record of the
available cluster in its place it returns the details, whose `CacheClusterId` is the
identifier; with no record of that identifier, or an empty list, it returns
`ErrCacheClusterDoesNotExist`. -/
theorem Describe_nil_endpoint_panics :
    (awsListing [otherCluster, creatingCluster]).Describe (str "cf-0123456789abcdef0") ()
      = .error .nilPointerDereference ∧
    [otherCluster, creatingCluster].find?
        (fun c => decide (aws.StringValue c.CacheClusterId = str "cf-0123456789abcdef0"))
      = some creatingCluster ∧
    ((awsListing [otherCluster, availableCluster]).Describe (str "cf-0123456789abcdef0")
        ()).map (fun r => (r.1.1.CacheClusterId, r.1.1.Status, r.1.1.Endpoint, r.1.1.Port, r.1.2))
      = .ok (str "cf-0123456789abcdef0", str "available", str "cache.example.com", 6379,
          none) ∧
    (awsListing [otherCluster]).Describe (str "cf-0123456789abcdef0") ()
      = .ok (({}, some .ErrCacheClusterDoesNotExist), ()) ∧
    (awsListing []).Describe (str "cf-0123456789abcdef0") ()
      = .ok (({}, some .ErrCacheClusterDoesNotExist), ()) := by
  exact ⟨by decide, by decide, by decide, by decide, by decide⟩

end Broker
